import Mathlib

/-!
Table response encoder (`include/engine/api/table_api.hpp`)

A shallow embedding of `osrm::engine::api::TableAPI`: the tree (JSON) emitter and the
binary (flatbuffers) emitter of the many-to-many table service.

Modelling conventions.

* A finite `double` is the rational it denotes; the correctly rounded division by `10.` that
  ends every cell expression is written as the exact quotient, the decimal that the resulting
  double stands for.  Raw durations are integers, so `duration / 10.` involves no other
  rounding.
* Raw distances are finite single-precision values, given as rationals.  The product
  `distance * 10` is rounded to single precision (`roundToFloat`: round to nearest, ties to
  even, overflow to an infinity) before `std::round` is applied, as the source evaluates it;
  `std::round` is `cround`, round-half-away-from-zero.  Signed zeros are identified and no NaN
  arises from finite inputs.
* `std::size_t` values are natural numbers.  Under the shape invariant
  `values.size() == rows * cols` every index expression of the source is bounded by the size
  of an allocated vector, so no wrap-around modulo `2^64` can occur.
* Reads that C++ leaves undefined (an iterator range running past the end of the vector,
  `phantoms[idx]` with `idx` out of range) and failed `BOOST_ASSERT`s make the embedded function
  return `none`.
* A `flatbuffers::Offset<T>` is represented by the value it denotes, and a generated
  `...Builder` by the record of the fields added so far.
-/

namespace osrm

/-! ## `util::json` containers -/

namespace util.json

/-- The variant `util::json::Value`.  An `Object` holds the entries of its `values` map and an
`Array` the elements of its `values` vector.  A `Number` holds a double: `Number` is a finite
one and `Infinity` a `Number` whose double is an infinity. -/
inductive Value where
  | String (value : String)
  | Number (value : ℚ)
  | Infinity (negative : Bool)
  | Object (values : List (String × Value))
  | Array (values : List Value)
  | True
  | False
  | Null

/-- The entries of `util::json::Object::values`, a map from keys to values; it is observed
through `Object.lookup` only. -/
abbrev Object := List (String × Value)

/-- Map lookup, `values.find(key)`. -/
def Object.lookup (o : Object) (key : String) : Option Value :=
  match o with
  | [] => none
  | (k, v) :: rest => if k = key then some v else Object.lookup rest key

/-- The assignment `values[key] = v`: overwrite the entry of `key` if there is one, add it
otherwise. -/
def Object.set (o : Object) (key : String) (v : Value) : Object :=
  match o with
  | [] => [(key, v)]
  | (k, w) :: rest => if k = key then (key, v) :: rest else (k, w) :: Object.set rest key v

end util.json

namespace engine

/-- Raw duration, `EdgeWeight` / `EdgeDuration`: a signed integer count of deciseconds. -/
abbrev EdgeWeight := ℤ

/-- Raw distance, `EdgeDistance`: a finite single-precision number of meters, given as the
rational it denotes. -/
abbrev EdgeDistance := ℚ

/-- Modelled from the spec: the domain sentinel constants of `util/typedefs.hpp` and
`table_parameters.hpp`, which the header uses but does not declare.  They are kept abstract;
the spec only says that they are reserved values of their numeric type. -/
structure Constants where
  MAXIMAL_EDGE_DURATION : EdgeWeight
  INVALID_EDGE_DISTANCE : EdgeDistance
  INVALID_FALLBACK_SPEED : ℚ

/-- The function `std::round`: nearest integer, halfway cases away from zero. -/
def cround (x : ℚ) : ℤ :=
  if 0 ≤ x then ⌊x + 1 / 2⌋ else -⌊-x + 1 / 2⌋

/-- A floating-point value other than a NaN: a finite value, given as the rational it denotes,
or an infinity with its sign. -/
inductive Floating where
  | finite (value : ℚ)
  | infinite (negative : Bool)
  deriving DecidableEq, Repr

/-- A numeral read as a finite floating-point value. -/
instance Floating.instOfNat (n : ℕ) : OfNat Floating n :=
  ⟨Floating.finite n⟩

/-- The constructor `util::json::Number(double)` as a `Value`. -/
def Floating.toValue : Floating → util.json.Value
  | Floating.finite value => util.json.Value.Number value
  | Floating.infinite negative => util.json.Value.Infinity negative

/-- Round to the nearest integer, a tie to the even one. -/
def roundTiesEven (x : ℚ) : ℤ :=
  if x - ⌊x⌋ < 1 / 2 then ⌊x⌋
  else if 1 / 2 < x - ⌊x⌋ then ⌊x⌋ + 1
  else if ⌊x⌋ % 2 = 0 then ⌊x⌋ else ⌊x⌋ + 1

/-- The spacing of single-precision values around `x`: `2 ^ (e - 23)` for
`2 ^ e ≤ |x| < 2 ^ (e + 1)`, and `2 ^ (-149)` in the subnormal range below `2 ^ (-126)`. -/
def floatUlp (x : ℚ) : ℚ :=
  2 ^ (max (Int.log 2 |x|) (-126) - 23)

/-- Modelled from the spec: `EdgeDistance` is declared in `util/typedefs.hpp`, not in this
header; it is the single-precision `float`, and an arithmetic result of that type is the exact
result rounded to the nearest single-precision value, a tie to the even significand, and to an
infinity from `2 ^ 128` on. -/
def roundToFloat (x : ℚ) : Floating :=
  if 2 ^ 128 ≤ |(roundTiesEven (x / floatUlp x) : ℚ) * floatUlp x| then
    Floating.infinite (decide (x < 0))
  else
    Floating.finite ((roundTiesEven (x / floatUlp x) : ℚ) * floatUlp x)

/-- The expression `std::round(distance * 10) / 10.` of both distance lambdas (lines 248 and
346): the single-precision product, rounded half away from zero, promoted and divided. -/
def roundedDistance (distance : EdgeDistance) : Floating :=
  match roundToFloat (distance * 10) with
  | Floating.finite product => Floating.finite ((cround product : ℚ) / 10)
  | Floating.infinite negative => Floating.infinite negative

/-- The loop-free core of `boost::range::transform` / the row loop when the element function can
fail: all results in order, or `none` as soon as one element fails. -/
def transformM {α β : Type} (f : α → Option β) : List α → Option (List β)
  | [] => some []
  | a :: as =>
    match f a, transformM f as with
    | some b, some bs => some (b :: bs)
    | _, _ => none

/-- The iterator range `[values.begin() + row * cols, values.begin() + (row + 1) * cols)` read by
`std::transform`; forming or reading it is undefined when it runs past `values.end()`. -/
def rowRange {α : Type} (values : List α) (row number_of_columns : ℕ) : Option (List α) :=
  if (row + 1) * number_of_columns ≤ values.length then
    some ((values.drop (row * number_of_columns)).take number_of_columns)
  else
    none

namespace api

/-- Modelled from the spec: `util::Coordinate`, only counted here. -/
structure Coordinate where
  lon : ℤ
  lat : ℤ

/-- Modelled from the spec: `TableParameters::AnnotationsType`, the subsets of
`{Duration, Distance}` as a bit mask. -/
inductive AnnotationsType where
  | None
  | Duration
  | Distance
  | All

/-- The underlying integer of an annotation value. -/
def AnnotationsType.underlying : AnnotationsType → ℕ
  | .None => 0
  | .Duration => 1
  | .Distance => 2
  | .All => 3

/-- The test `lhs & rhs` on annotation values: the masks share a bit. -/
def AnnotationsType.and (lhs rhs : AnnotationsType) : Bool :=
  (lhs.underlying &&& rhs.underlying) != 0

/-- Modelled from the spec: the fields of `TableParameters` that the encoder reads. -/
structure TableParameters where
  coordinates : List Coordinate
  sources : List ℕ
  destinations : List ℕ
  annotations : AnnotationsType
  fallback_speed : ℚ

/-! ### The generated binary schema types -/

namespace fbresult

/-- Modelled from the spec: the response-type discriminator of the shared envelope; only the
table variant is named by the header. -/
inductive ServiceResponse where
  | NONE
  | table
  | other (tag : ℕ)

/-- The record `fbresult::VectorDouble`: one vector of doubles, all finite. -/
abbrev VectorDouble := List ℚ

/-- The record `fbresult::VectorDouble` when its doubles may be infinite, as in a row of
distances. -/
abbrev VectorFloating := List Floating

/-- Modelled from the spec: the binary table payload, with the five fields the header adds;
a field that was never added is `none`. -/
structure Table (Waypoint : Type) where
  sources : Option (List Waypoint)
  destinations : Option (List Waypoint)
  durations : Option (List VectorDouble)
  distances : Option (List VectorFloating)
  fallback_speed_cells : Option (List VectorDouble)

/-- Modelled from the spec: the envelope, carrying a status string, the response-type
discriminator and the payload it wraps. -/
structure FBResult (Waypoint : Type) where
  code : Option String
  response_type : ServiceResponse
  table : Option (Table Waypoint)

/-- Modelled from the spec: `fbresult::TableBuilder`, the payload under construction. -/
abbrev TableBuilder (Waypoint : Type) := Table Waypoint

/-- A fresh `TableBuilder`: no field added. -/
def TableBuilder.start {Waypoint : Type} : TableBuilder Waypoint :=
  ⟨none, none, none, none, none⟩

/-- The setter `add_sources`. -/
def TableBuilder.add_sources {Waypoint : Type} (t : TableBuilder Waypoint)
    (v : List Waypoint) : TableBuilder Waypoint :=
  { t with sources := some v }

/-- The setter `add_destinations`. -/
def TableBuilder.add_destinations {Waypoint : Type} (t : TableBuilder Waypoint)
    (v : List Waypoint) : TableBuilder Waypoint :=
  { t with destinations := some v }

/-- The setter `add_durations`. -/
def TableBuilder.add_durations {Waypoint : Type} (t : TableBuilder Waypoint)
    (v : List VectorDouble) : TableBuilder Waypoint :=
  { t with durations := some v }

/-- The setter `add_distances`. -/
def TableBuilder.add_distances {Waypoint : Type} (t : TableBuilder Waypoint)
    (v : List VectorFloating) : TableBuilder Waypoint :=
  { t with distances := some v }

/-- The setter `add_fallback_speed_cells`. -/
def TableBuilder.add_fallback_speed_cells {Waypoint : Type} (t : TableBuilder Waypoint)
    (v : List VectorDouble) : TableBuilder Waypoint :=
  { t with fallback_speed_cells := some v }

/-- Modelled from the spec: `fbresult::FBResultBuilder`, the envelope under construction. -/
abbrev FBResultBuilder (Waypoint : Type) := FBResult Waypoint

/-- A fresh `FBResultBuilder`: no field added. -/
def FBResultBuilder.start {Waypoint : Type} : FBResultBuilder Waypoint :=
  ⟨none, ServiceResponse.NONE, none⟩

/-- The setter `add_code`. -/
def FBResultBuilder.add_code {Waypoint : Type} (r : FBResultBuilder Waypoint)
    (v : String) : FBResultBuilder Waypoint :=
  { r with code := some v }

/-- The setter `add_response_type`. -/
def FBResultBuilder.add_response_type {Waypoint : Type} (r : FBResultBuilder Waypoint)
    (v : ServiceResponse) : FBResultBuilder Waypoint :=
  { r with response_type := v }

/-- The call `FBResultBuilder::Finish`: the envelope record with the fields added so far. -/
def FBResultBuilder.Finish {Waypoint : Type} (r : FBResultBuilder Waypoint) : FBResult Waypoint :=
  r

/-- Modelled from the spec: the observable state of a `flatbuffers::FlatBufferBuilder`, the root
record it was finished with, if any. -/
structure FlatBufferBuilder (Waypoint : Type) where
  finished : Option (FBResult Waypoint)

/-- The call `FlatBufferBuilder::Finish(root)`. -/
def FlatBufferBuilder.Finish {Waypoint : Type} (_fb : FlatBufferBuilder Waypoint)
    (root : FBResult Waypoint) : FlatBufferBuilder Waypoint :=
  ⟨some root⟩

end fbresult

namespace TableAPI

/-- A fallback cell, `TableAPI::TableCellRef`. -/
structure TableCellRef where
  row : ℕ
  column : ℕ

/-! ### Tree (JSON) encoding -/

namespace Json

open util.json

/-- `MakeWaypoints(phantoms)`, lines 271-282. -/
def MakeWaypoints {PhantomNode : Type} (MakeWaypoint : PhantomNode → Object)
    (parameters : TableParameters) (phantoms : List PhantomNode) : Option (List Value) :=
  if phantoms.length = parameters.coordinates.length then
    some (phantoms.map fun phantom => Value.Object (MakeWaypoint phantom))
  else
    none

/-- `MakeWaypoints(phantoms, indices)`, lines 284-296. -/
def MakeWaypointsAt {PhantomNode : Type} (MakeWaypoint : PhantomNode → Object)
    (phantoms : List PhantomNode) (indices : List ℕ) : Option (List Value) :=
  transformM
    (fun idx =>
      if h : idx < phantoms.length then
        some (Value.Object (MakeWaypoint (phantoms.get ⟨idx, h⟩)))
      else
        none)
    indices

/-- The cell lambda of `MakeDurationTable`, lines 312-319. -/
def durationCell (c : Constants) (duration : EdgeWeight) : Value :=
  if duration = c.MAXIMAL_EDGE_DURATION then
    Value.Null
  else
    -- division by 10 because the duration is in deciseconds (10s)
    Value.Number ((duration : ℚ) / 10)

/-- `MakeDurationTable(values, number_of_rows, number_of_columns)`, lines 298-323. -/
def MakeDurationTable (c : Constants) (values : List EdgeWeight)
    (number_of_rows number_of_columns : ℕ) : Option (List Value) :=
  transformM
    (fun row =>
      (rowRange values row number_of_columns).map fun cells =>
        Value.Array (cells.map (durationCell c)))
    (List.range number_of_rows)

/-- The cell lambda of `MakeDistanceTable`, lines 339-347. -/
def distanceCell (c : Constants) (distance : EdgeDistance) : Value :=
  if distance = c.INVALID_EDGE_DISTANCE then
    Value.Null
  else
    -- round to single decimal place
    (roundedDistance distance).toValue

/-- `MakeDistanceTable(values, number_of_rows, number_of_columns)`, lines 325-351. -/
def MakeDistanceTable (c : Constants) (values : List EdgeDistance)
    (number_of_rows number_of_columns : ℕ) : Option (List Value) :=
  transformM
    (fun row =>
      (rowRange values row number_of_columns).map fun cells =>
        Value.Array (cells.map (distanceCell c)))
    (List.range number_of_rows)

/-- `MakeEstimatesTable(fallback_speed_cells)`, lines 353-365. -/
def MakeEstimatesTable (fallback_speed_cells : List TableCellRef) : List Value :=
  fallback_speed_cells.map fun cell =>
    Value.Array [Value.Number (cell.row : ℚ), Value.Number (cell.column : ℚ)]

/-- `MakeResponse(tables, phantoms, fallback_speed_cells, util::json::Object &)`,
lines 117-165. -/
def MakeResponse {PhantomNode : Type} (c : Constants) (MakeWaypoint : PhantomNode → Object)
    (parameters : TableParameters) (tables : List EdgeWeight × List EdgeDistance)
    (phantoms : List PhantomNode) (fallback_speed_cells : List TableCellRef)
    (response : Object) : Option Object := do
  let mut response := response
  let mut number_of_sources := parameters.sources.length
  let mut number_of_destinations := parameters.destinations.length
  -- symmetric case
  if parameters.sources.isEmpty then
    response := response.set "sources"
      (Value.Array (← MakeWaypoints MakeWaypoint parameters phantoms))
    number_of_sources := phantoms.length
  else
    response := response.set "sources"
      (Value.Array (← MakeWaypointsAt MakeWaypoint phantoms parameters.sources))
  if parameters.destinations.isEmpty then
    response := response.set "destinations"
      (Value.Array (← MakeWaypoints MakeWaypoint parameters phantoms))
    number_of_destinations := phantoms.length
  else
    response := response.set "destinations"
      (Value.Array (← MakeWaypointsAt MakeWaypoint phantoms parameters.destinations))
  if parameters.annotations.and AnnotationsType.Duration then
    response := response.set "durations"
      (Value.Array (← MakeDurationTable c tables.1 number_of_sources number_of_destinations))
  if parameters.annotations.and AnnotationsType.Distance then
    response := response.set "distances"
      (Value.Array (← MakeDistanceTable c tables.2 number_of_sources number_of_destinations))
  if parameters.fallback_speed ≠ c.INVALID_FALLBACK_SPEED ∧ parameters.fallback_speed > 0 then
    response := response.set "fallback_speed_cells"
      (Value.Array (MakeEstimatesTable fallback_speed_cells))
  response := response.set "code" (Value.String "Ok")
  return response

end Json

/-! ### Binary (flatbuffers) encoding -/

namespace Fb

open fbresult

/-- `MakeWaypoints(builder, phantoms)`, lines 168-180. -/
def MakeWaypoints {PhantomNode Waypoint : Type} (MakeWaypoint : PhantomNode → Waypoint)
    (parameters : TableParameters) (phantoms : List PhantomNode) : Option (List Waypoint) :=
  if phantoms.length = parameters.coordinates.length then
    some (phantoms.map fun phantom => MakeWaypoint phantom)
  else
    none

/-- `MakeWaypoints(builder, phantoms, indices)`, lines 182-196. -/
def MakeWaypointsAt {PhantomNode Waypoint : Type} (MakeWaypoint : PhantomNode → Waypoint)
    (phantoms : List PhantomNode) (indices : List ℕ) : Option (List Waypoint) :=
  transformM
    (fun idx =>
      if h : idx < phantoms.length then
        some (MakeWaypoint (phantoms.get ⟨idx, h⟩))
      else
        none)
    indices

/-- The cell lambda of the binary `MakeDurationTable`, lines 214-221. -/
def durationCell (c : Constants) (duration : EdgeWeight) : ℚ :=
  if duration = c.MAXIMAL_EDGE_DURATION then
    (c.MAXIMAL_EDGE_DURATION : ℚ)
  else
    -- division by 10 because the duration is in deciseconds (10s)
    (duration : ℚ) / 10

/-- `MakeDurationTable(builder, values, number_of_rows, number_of_columns)`, lines 198-225. -/
def MakeDurationTable (c : Constants) (values : List EdgeWeight)
    (number_of_rows number_of_columns : ℕ) : Option (List VectorDouble) :=
  transformM
    (fun row =>
      (rowRange values row number_of_columns).map fun cells => cells.map (durationCell c))
    (List.range number_of_rows)

/-- The cell lambda of the binary `MakeDistanceTable`, lines 243-249. -/
def distanceCell (c : Constants) (distance : EdgeDistance) : Floating :=
  if distance = c.INVALID_EDGE_DISTANCE then
    Floating.finite c.INVALID_EDGE_DISTANCE
  else
    -- round to single decimal place
    roundedDistance distance

/-- `MakeDistanceTable(builder, values, number_of_rows, number_of_columns)`, lines 227-253. -/
def MakeDistanceTable (c : Constants) (values : List EdgeDistance)
    (number_of_rows number_of_columns : ℕ) : Option (List VectorFloating) :=
  transformM
    (fun row =>
      (rowRange values row number_of_columns).map fun cells => cells.map (distanceCell c))
    (List.range number_of_rows)

/-- `MakeEstimatesTable(builder, fallback_speed_cells)`, lines 255-268. -/
def MakeEstimatesTable (fallback_speed_cells : List TableCellRef) : List VectorDouble :=
  fallback_speed_cells.map fun cell => [(cell.row : ℚ), (cell.column : ℚ)]

/-- Lines 69-71 and 76-112 of the binary `MakeResponse`: the payload builder `table`, as it
stands when line 114 is reached. -/
def MakeResponseTable {PhantomNode Waypoint : Type} (c : Constants)
    (MakeWaypoint : PhantomNode → Waypoint) (parameters : TableParameters)
    (tables : List EdgeWeight × List EdgeDistance) (phantoms : List PhantomNode)
    (fallback_speed_cells : List TableCellRef) : Option (TableBuilder Waypoint) := do
  let mut number_of_sources := parameters.sources.length
  let mut number_of_destinations := parameters.destinations.length
  let mut table : TableBuilder Waypoint := TableBuilder.start
  -- symmetric case
  if parameters.sources.isEmpty then
    table := table.add_sources (← MakeWaypoints MakeWaypoint parameters phantoms)
    number_of_sources := phantoms.length
  else
    table := table.add_sources (← MakeWaypointsAt MakeWaypoint phantoms parameters.sources)
  if parameters.destinations.isEmpty then
    table := table.add_destinations (← MakeWaypoints MakeWaypoint parameters phantoms)
    number_of_destinations := phantoms.length
  else
    table := table.add_destinations
      (← MakeWaypointsAt MakeWaypoint phantoms parameters.destinations)
  if parameters.annotations.and AnnotationsType.Duration then
    table := table.add_durations
      (← MakeDurationTable c tables.1 number_of_sources number_of_destinations)
  if parameters.annotations.and AnnotationsType.Distance then
    table := table.add_distances
      (← MakeDistanceTable c tables.2 number_of_sources number_of_destinations)
  if parameters.fallback_speed ≠ c.INVALID_FALLBACK_SPEED ∧ parameters.fallback_speed > 0 then
    table := table.add_fallback_speed_cells (MakeEstimatesTable fallback_speed_cells)
  return table

/-- `MakeResponse(tables, phantoms, fallback_speed_cells, flatbuffers::FlatBufferBuilder &)`,
lines 64-115: the envelope builder `response` receives the status string and the
discriminator (lines 72-74), the payload builder `table` is filled (lines 76-112), and line 114
finishes the buffer with `response.Finish()` as its root.  The local `table` is not used after
line 112. -/
def MakeResponse {PhantomNode Waypoint : Type} (c : Constants)
    (MakeWaypoint : PhantomNode → Waypoint) (parameters : TableParameters)
    (tables : List EdgeWeight × List EdgeDistance) (phantoms : List PhantomNode)
    (fallback_speed_cells : List TableCellRef)
    (fb_result : FlatBufferBuilder Waypoint) : Option (FlatBufferBuilder Waypoint) := do
  let mut response : FBResultBuilder Waypoint := FBResultBuilder.start
  response := response.add_code "Ok"
  response := response.add_response_type ServiceResponse.table
  let _table ← MakeResponseTable c MakeWaypoint parameters tables phantoms fallback_speed_cells
  return fb_result.Finish response.Finish

end Fb

/-- Modelled from the spec: the variant `ResultT` handed to the service, of which the header
tests the alternative `flatbuffers::FlatBufferBuilder` and reads the alternative
`util::json::Object`. -/
inductive ResultT (Waypoint : Type) where
  | json (object : util.json.Object)
  | flatbuffers (builder : fbresult.FlatBufferBuilder Waypoint)

/-- `MakeResponse(tables, phantoms, fallback_speed_cells, ResultT &)`, lines 48-62: the binary
emitter when `response` holds a builder, the tree emitter on the object it holds otherwise. -/
def MakeResponse {PhantomNode Waypoint : Type} (c : Constants)
    (MakeWaypointJson : PhantomNode → util.json.Object)
    (MakeWaypointFb : PhantomNode → Waypoint) (parameters : TableParameters)
    (tables : List EdgeWeight × List EdgeDistance) (phantoms : List PhantomNode)
    (fallback_speed_cells : List TableCellRef) (response : ResultT Waypoint) :
    Option (ResultT Waypoint) :=
  match response with
  | ResultT.flatbuffers fb_result =>
    (Fb.MakeResponse c MakeWaypointFb parameters tables phantoms fallback_speed_cells
      fb_result).map ResultT.flatbuffers
  | ResultT.json json_result =>
    (Json.MakeResponse c MakeWaypointJson parameters tables phantoms fallback_speed_cells
      json_result).map ResultT.json

/-- Spec-side reading of a tree cell as a binary cell: a null becomes the sentinel, a number
stays; nothing else occurs in a table. -/
def nullReplacedCell (sentinel : ℚ) : util.json.Value → Option ℚ
  | util.json.Value.Null => some sentinel
  | util.json.Value.Number x => some x
  | _ => none

/-- Spec-side reading of a tree row as a binary row, cell by cell. -/
def nullReplacedRow (sentinel : ℚ) : util.json.Value → Option fbresult.VectorDouble
  | util.json.Value.Array cells => transformM (nullReplacedCell sentinel) cells
  | _ => none

/-- Spec-side reading of a tree table as a binary table: the tree table with every null
replaced by the sentinel. -/
def nullReplacedTable (sentinel : ℚ) (table : List util.json.Value) :
    Option (List fbresult.VectorDouble) :=
  transformM (nullReplacedRow sentinel) table

/-- Spec-side reading of a tree distance cell as a binary cell: a null becomes the sentinel, a
number stays, finite or infinite. -/
def nullReplacedDistanceCell (sentinel : ℚ) : util.json.Value → Option Floating
  | util.json.Value.Null => some (Floating.finite sentinel)
  | util.json.Value.Number x => some (Floating.finite x)
  | util.json.Value.Infinity negative => some (Floating.infinite negative)
  | _ => none

/-- Spec-side reading of a tree distance row as a binary row, cell by cell. -/
def nullReplacedDistanceRow (sentinel : ℚ) :
    util.json.Value → Option fbresult.VectorFloating
  | util.json.Value.Array cells => transformM (nullReplacedDistanceCell sentinel) cells
  | _ => none

/-- Spec-side reading of a tree distance table as a binary table: the tree table with every
null replaced by the sentinel. -/
def nullReplacedDistanceTable (sentinel : ℚ) (table : List util.json.Value) :
    Option (List fbresult.VectorFloating) :=
  transformM (nullReplacedDistanceRow sentinel) table

/-- The caller-guaranteed preconditions of `MakeResponse` (the invariants of the data model):
every selected index is below the number of points, the point list is as long as the coordinate
list whenever a side uses all points (the `BOOST_ASSERT` of lines 173 and 275), and each
requested table holds `rows * cols` values for the projected row and column counts. -/
def ValidInput {PhantomNode : Type} (parameters : TableParameters)
    (tables : List EdgeWeight × List EdgeDistance) (phantoms : List PhantomNode) : Prop :=
  (∀ idx ∈ parameters.sources, idx < phantoms.length) ∧
  (∀ idx ∈ parameters.destinations, idx < phantoms.length) ∧
  ((parameters.sources = [] ∨ parameters.destinations = []) →
    phantoms.length = parameters.coordinates.length) ∧
  (parameters.annotations.and AnnotationsType.Duration = true →
    tables.1.length =
      (if parameters.sources = [] then phantoms.length else parameters.sources.length) *
      (if parameters.destinations = [] then phantoms.length
        else parameters.destinations.length)) ∧
  (parameters.annotations.and AnnotationsType.Distance = true →
    tables.2.length =
      (if parameters.sources = [] then phantoms.length else parameters.sources.length) *
      (if parameters.destinations = [] then phantoms.length
        else parameters.destinations.length))

/-- The preconditions are decidable. -/
instance ValidInput.decidable {PhantomNode : Type} (parameters : TableParameters)
    (tables : List EdgeWeight × List EdgeDistance) (phantoms : List PhantomNode) :
    Decidable (ValidInput parameters tables phantoms) := by
  unfold ValidInput
  infer_instance

end TableAPI
end api
end engine
end osrm

open osrm osrm.engine osrm.engine.api osrm.engine.api.TableAPI osrm.util.json
open osrm.engine.api.fbresult

/-! ## A sample query

Three points, the source selection `[0, 2]`, no destination selection (all three points), both
annotations requested and a fallback speed of 25; the sentinels are the largest values of a
signed 32-bit integer, of a `float` and of a `double`. -/

namespace Sample

/-- The sentinel constants of the sample. -/
def constants : Constants :=
  ⟨2147483647, 2 ^ 128 - 2 ^ 104, 2 ^ 1024 - 2 ^ 971⟩

/-- The request parameters of the sample. -/
def parameters : TableParameters :=
  ⟨[⟨0, 0⟩, ⟨1, 1⟩, ⟨2, 2⟩], [0, 2], [], AnnotationsType.All, 25⟩

/-- The raw 2 x 3 duration and distance tables of the sample. -/
def tables : List EdgeWeight × List EdgeDistance :=
  ([100, 2147483647, 300, 50, 60, 2147483647], [1, 2, 3, 4, 5, 6])

/-- The three points of the sample; a point is stood for by a number. -/
def phantoms : List ℕ :=
  [10, 20, 30]

/-- The fallback cells of the sample. -/
def fallback_speed_cells : List TableCellRef :=
  [⟨0, 1⟩, ⟨1, 2⟩]

/-- A stand-in for the external tree waypoint descriptor. -/
def describeJson (n : ℕ) : Object :=
  [("hint", Value.Number (n : ℚ))]

/-- A stand-in for the external binary waypoint descriptor. -/
def describeFb (n : ℕ) : ℕ :=
  n + 1

end Sample

/-! ## The end-to-end example

Three points, `sources = [0, 2]`, no destination selection, the raw durations
`[100, MAX, 300, 50, 60, MAX]` as a 2 x 3 table, only the Duration annotation, and the fallback
disabled by the reserved speed value. -/

namespace EndToEnd

/-- The request parameters of the example. -/
def parameters : TableParameters :=
  ⟨[⟨0, 0⟩, ⟨1, 1⟩, ⟨2, 2⟩], [0, 2], [], AnnotationsType.Duration,
    Sample.constants.INVALID_FALLBACK_SPEED⟩

/-- The raw tables of the example; no distances are requested. -/
def tables : List EdgeWeight × List EdgeDistance :=
  ([100, 2147483647, 300, 50, 60, 2147483647], [])

end EndToEnd

/-! ## Auxiliary facts -/

/-- When every element succeeds, `transformM` is `List.map`. -/
theorem transformM_eq_map {α β : Type} (f : α → Option β) (g : α → β) (l : List α)
    (h : ∀ a ∈ l, f a = some (g a)) : transformM f l = some (l.map g) := by
  induction l with
  | nil => rfl
  | cons a as ih =>
    have h1 : f a = some (g a) := h a (List.mem_cons_self a as)
    have h2 : transformM f as = some (as.map g) :=
      ih (fun x hx => h x (List.mem_cons_of_mem a hx))
    simp [transformM, h1, h2]

/-- Every row below `rows` lies inside a vector holding at least `rows * cols` values. -/
theorem row_end_le {row rows cols len : ℕ} (hrow : row < rows) (hlen : rows * cols ≤ len) :
    (row + 1) * cols ≤ len :=
  le_trans (Nat.mul_le_mul_right cols hrow) hlen

/-- The row loop of the four table builders, for a vector that holds all the rows. -/
theorem transformM_rows {α β : Type} (g : List α → β) (values : List α) (rows cols : ℕ)
    (hlen : rows * cols ≤ values.length) :
    transformM (fun row => (rowRange values row cols).map g) (List.range rows) =
      some ((List.range rows).map fun row => g ((values.drop (row * cols)).take cols)) := by
  apply transformM_eq_map
  intro row hrow
  have hlt : row < rows := List.mem_range.mp hrow
  simp [rowRange, row_end_le hlt hlen]

/-- The cell `col` of row `row` is the flat entry `row * cols + col`. -/
theorem row_getElem? {α : Type} (values : List α) (row cols col : ℕ) (hcol : col < cols) :
    ((values.drop (row * cols)).take cols)[col]? = values[row * cols + col]? := by
  rw [List.getElem?_take_of_lt hcol, List.getElem?_drop]

/-- A row of a vector that holds it has `cols` cells. -/
theorem row_length {α : Type} (values : List α) (row cols : ℕ)
    (h : (row + 1) * cols ≤ values.length) :
    ((values.drop (row * cols)).take cols).length = cols := by
  rw [List.length_take, List.length_drop]
  have : (row + 1) * cols = row * cols + cols := by ring
  omega

/-- The flat index of a cell lies inside a vector that holds all the rows. -/
theorem flat_index_lt {row rows col cols len : ℕ} (hrow : row < rows) (hcol : col < cols)
    (hlen : rows * cols ≤ len) : row * cols + col < len := by
  have h := row_end_le hrow hlen
  have : (row + 1) * cols = row * cols + cols := by ring
  omega

/-- The shape and the cells of a table built by the row loop with cell function `cell` and row
constructor `wrap`. -/
theorem table_rows_spec {α β γ : Type} (cell : α → β) (wrap : List β → γ) (values : List α)
    (rows cols : ℕ) (hlen : rows * cols ≤ values.length) :
    ∃ table : List γ,
      transformM (fun row => (rowRange values row cols).map fun cells => wrap (cells.map cell))
        (List.range rows) = some table ∧
      table.length = rows ∧
      ∀ r, r < rows → ∃ cells : List β, table[r]? = some (wrap cells) ∧ cells.length = cols ∧
        ∀ col, col < cols → ∃ raw, values[r * cols + col]? = some raw ∧
          cells[col]? = some (cell raw) := by
  refine ⟨_, transformM_rows (fun cells => wrap (cells.map cell)) values rows cols hlen, ?_, ?_⟩
  · simp
  · intro r hr
    refine ⟨((values.drop (r * cols)).take cols).map cell, ?_, ?_, ?_⟩
    · simp [List.getElem?_map, List.getElem?_range hr]
    · rw [List.length_map]
      exact row_length values r cols (row_end_le hr hlen)
    · intro col hcol
      have hlt : r * cols + col < values.length := flat_index_lt hr hcol hlen
      refine ⟨values[r * cols + col], List.getElem?_eq_getElem hlt, ?_⟩
      rw [List.getElem?_map, row_getElem? values r cols col hcol, List.getElem?_eq_getElem hlt]
      rfl

/-- Values of `std::round` at the inputs used below. -/
theorem cround_nonneg_eq (x : ℚ) (n : ℤ) (h0 : 0 ≤ x) (h1 : (n : ℚ) ≤ x + 1 / 2)
    (h2 : x + 1 / 2 < (n : ℚ) + 1) : cround x = n := by
  unfold cround
  rw [if_pos h0]
  exact Int.floor_eq_iff.mpr ⟨h1, h2⟩

/-! ## The table builders -/

/-- C1. Tree duration table: when `values` holds `rows * cols` entries, `MakeDurationTable`
returns `rows` rows of `cols` cells each, and the cell at `(r, c)` is null when
`values[r * cols + c]` is `MAXIMAL_EDGE_DURATION` and the number `values[r * cols + c] / 10`
otherwise; the raw value 125 is encoded as 12.5. -/
theorem json_MakeDurationTable_spec (c : Constants) (values : List EdgeWeight) (rows cols : ℕ)
    (hlen : values.length = rows * cols) :
    (∃ table : List Value,
      Json.MakeDurationTable c values rows cols = some table ∧
      table.length = rows ∧
      ∀ r, r < rows → ∃ cells : List Value,
        table[r]? = some (Value.Array cells) ∧ cells.length = cols ∧
        ∀ col, col < cols → ∃ raw : EdgeWeight, values[r * cols + col]? = some raw ∧
          cells[col]? = some (if raw = c.MAXIMAL_EDGE_DURATION then Value.Null
            else Value.Number ((raw : ℚ) / 10))) ∧
    ((125 : EdgeWeight) ≠ c.MAXIMAL_EDGE_DURATION →
      Json.MakeDurationTable c [125] 1 1 = some [Value.Array [Value.Number 12.5]]) := by
  constructor
  · exact table_rows_spec (Json.durationCell c) Value.Array values rows cols (le_of_eq hlen.symm)
  · intro h
    simp [Json.MakeDurationTable, transformM, rowRange, Json.durationCell, List.range,
      List.range.loop, h]
    norm_num

/-- C1, at the vector `[125, 2147483647]` read as one row of two cells. -/
theorem json_MakeDurationTable_spec_witness :
    ([125, 2147483647] : List EdgeWeight).length = 1 * 2 ∧
    ((∃ table : List Value,
      Json.MakeDurationTable ⟨2147483647, 0, 0⟩ [125, 2147483647] 1 2 = some table ∧
      table.length = 1 ∧
      ∀ r, r < 1 → ∃ cells : List Value,
        table[r]? = some (Value.Array cells) ∧ cells.length = 2 ∧
        ∀ col, col < 2 → ∃ raw : EdgeWeight,
          ([125, 2147483647] : List EdgeWeight)[r * 2 + col]? = some raw ∧
          cells[col]? = some (if raw = (2147483647 : EdgeWeight) then Value.Null
            else Value.Number ((raw : ℚ) / 10))) ∧
    ((125 : EdgeWeight) ≠ (2147483647 : EdgeWeight) →
      Json.MakeDurationTable ⟨2147483647, 0, 0⟩ [125] 1 1 =
        some [Value.Array [Value.Number 12.5]])) :=
  ⟨rfl, json_MakeDurationTable_spec ⟨2147483647, 0, 0⟩ [125, 2147483647] 1 2 rfl⟩

/-- C2. Binary duration table: when `values` holds `rows * cols` entries, the binary
`MakeDurationTable` returns `rows` numeric rows of `cols` cells each, and the cell at `(r, c)`
is the literal `MAXIMAL_EDGE_DURATION` (not divided by 10) when `values[r * cols + c]` is that
sentinel and `values[r * cols + c] / 10` otherwise. -/
theorem fb_MakeDurationTable_spec (c : Constants) (values : List EdgeWeight) (rows cols : ℕ)
    (hlen : values.length = rows * cols) :
    ∃ table : List VectorDouble,
      Fb.MakeDurationTable c values rows cols = some table ∧
      table.length = rows ∧
      ∀ r, r < rows → ∃ cells : VectorDouble,
        table[r]? = some cells ∧ cells.length = cols ∧
        ∀ col, col < cols → ∃ raw : EdgeWeight, values[r * cols + col]? = some raw ∧
          cells[col]? = some (if raw = c.MAXIMAL_EDGE_DURATION then
            (c.MAXIMAL_EDGE_DURATION : ℚ) else (raw : ℚ) / 10) :=
  table_rows_spec (Fb.durationCell c) (fun cells => cells) values rows cols
    (le_of_eq hlen.symm)

/-- C2, at the vector `[125, 2147483647]` read as one row of two cells. -/
theorem fb_MakeDurationTable_spec_witness :
    ([125, 2147483647] : List EdgeWeight).length = 1 * 2 ∧
    ∃ table : List VectorDouble,
      Fb.MakeDurationTable ⟨2147483647, 0, 0⟩ [125, 2147483647] 1 2 = some table ∧
      table.length = 1 ∧
      ∀ r, r < 1 → ∃ cells : VectorDouble,
        table[r]? = some cells ∧ cells.length = 2 ∧
        ∀ col, col < 2 → ∃ raw : EdgeWeight,
          ([125, 2147483647] : List EdgeWeight)[r * 2 + col]? = some raw ∧
          cells[col]? = some (if raw = (2147483647 : EdgeWeight) then
            ((2147483647 : EdgeWeight) : ℚ) else (raw : ℚ) / 10) :=
  ⟨rfl, fb_MakeDurationTable_spec ⟨2147483647, 0, 0⟩ [125, 2147483647] 1 2 rfl⟩

/-- An integer is its own rounding half away from zero. -/
theorem cround_intCast (n : ℤ) : cround (n : ℚ) = n := by
  unfold cround
  by_cases h0 : (0 : ℚ) ≤ (n : ℚ)
  · rw [if_pos h0]
    exact Int.floor_eq_iff.mpr ⟨by linarith, by linarith⟩
  · rw [if_neg h0]
    have h1 : ⌊-(n : ℚ) + 1 / 2⌋ = -n :=
      Int.floor_eq_iff.mpr ⟨by push_cast; linarith, by push_cast; linarith⟩
    rw [h1]
    exact neg_neg n

/-- The binary logarithm of a value in the binade `[2 ^ e, 2 ^ (e + 1))` is `e`. -/
theorem int_log_two_eq (x : ℚ) (e : ℤ) (h1 : (2 : ℚ) ^ e ≤ x) (h2 : x < 2 ^ (e + 1)) :
    Int.log 2 x = e := by
  have hx : 0 < x := lt_of_lt_of_le (zpow_pos (by norm_num) e) h1
  have a : e ≤ Int.log 2 x := (Int.zpow_le_iff_le_log (by norm_num) hx).mp (by exact_mod_cast h1)
  have b : Int.log 2 x < e + 1 := (Int.lt_zpow_iff_log_lt (by norm_num) hx).mp (by exact_mod_cast h2)
  omega

/-- The spacing in a normal binade. -/
theorem floatUlp_of_binade (x : ℚ) (e : ℤ) (he : -126 ≤ e) (h1 : (2 : ℚ) ^ e ≤ |x|)
    (h2 : |x| < 2 ^ (e + 1)) : floatUlp x = 2 ^ (e - 23) := by
  unfold floatUlp
  rw [int_log_two_eq |x| e h1 h2, max_eq_left he]

/-- The spacing in the subnormal range. -/
theorem floatUlp_of_small (x : ℚ) (h0 : x ≠ 0) (h : |x| < 2 ^ (-126 : ℤ)) :
    floatUlp x = 2 ^ (-149 : ℤ) := by
  unfold floatUlp
  have hx : 0 < |x| := abs_pos.mpr h0
  have hl : Int.log 2 |x| < -126 :=
    (Int.lt_zpow_iff_log_lt (R := ℚ) (b := 2) (by norm_num) hx).mp (by exact_mod_cast h)
  rw [max_eq_right (le_of_lt hl)]
  norm_num

/-- Rounding to nearest picks the integer that is less than one half away. -/
theorem roundTiesEven_of_lt (x : ℚ) (n : ℤ) (h : |x - n| < 1 / 2) : roundTiesEven x = n := by
  rw [abs_lt] at h
  unfold roundTiesEven
  by_cases hx : (n : ℚ) ≤ x
  · have hf : ⌊x⌋ = n := Int.floor_eq_iff.mpr ⟨hx, by linarith [h.2]⟩
    rw [hf, if_pos (by linarith [h.2])]
  · have hx2 : x < n := lt_of_not_ge hx
    have hf : ⌊x⌋ = n - 1 := Int.floor_eq_iff.mpr ⟨by push_cast; linarith [h.1], by push_cast; linarith⟩
    rw [hf]
    have h3 : ¬ (x - ((n - 1 : ℤ) : ℚ) < 1 / 2) := by push_cast; linarith [h.1]
    have h4 : (1 : ℚ) / 2 < x - ((n - 1 : ℤ) : ℚ) := by push_cast; linarith [h.1]
    rw [if_neg h3, if_pos h4]
    ring

/-- An integer is its own rounding. -/
theorem roundTiesEven_intCast (n : ℤ) : roundTiesEven (n : ℚ) = n :=
  roundTiesEven_of_lt _ n (by simp)

/-- A tie below an even integer goes up to it. -/
theorem roundTiesEven_tie_up (x : ℚ) (n : ℤ) (h : x = n - 1 / 2) (heven : n % 2 = 0) :
    roundTiesEven x = n := by
  unfold roundTiesEven
  have hf : ⌊x⌋ = n - 1 := Int.floor_eq_iff.mpr ⟨by push_cast; linarith, by push_cast; linarith⟩
  rw [hf]
  have h3 : ¬ (x - ((n - 1 : ℤ) : ℚ) < 1 / 2) := by push_cast; linarith
  have h4 : ¬ ((1 : ℚ) / 2 < x - ((n - 1 : ℤ) : ℚ)) := by push_cast; linarith
  have h5 : ¬ ((n - 1) % 2 = 0) := by omega
  rw [if_neg h3, if_neg h4, if_neg h5]
  ring

/-- Evaluation of the rounding once the binade and the rounded significand are known. -/
theorem roundToFloat_eq (x : ℚ) (e m : ℤ) (he : -126 ≤ e) (h1 : (2 : ℚ) ^ e ≤ |x|)
    (h2 : |x| < 2 ^ (e + 1)) (hm : roundTiesEven (x / 2 ^ (e - 23)) = m)
    (hfin : |(m : ℚ) * 2 ^ (e - 23)| < 2 ^ 128) :
    roundToFloat x = Floating.finite ((m : ℚ) * 2 ^ (e - 23)) := by
  unfold roundToFloat
  rw [floatUlp_of_binade x e he h1 h2, hm, if_neg (not_le.mpr hfin)]


/-- Zero is a single-precision value. -/
theorem roundToFloat_zero : roundToFloat 0 = Floating.finite 0 := by
  unfold roundToFloat
  have h : roundTiesEven ((0 : ℚ) / floatUlp 0) = 0 := by
    rw [zero_div]
    exact_mod_cast roundTiesEven_intCast 0
  rw [h]
  norm_num

/-- A significand of fewer than 25 bits scaled by a power of two is a single-precision value,
unless it overflows. -/
theorem roundToFloat_scaled (R : ℤ) (j : ℕ) (hR : |R| < 2 ^ 24)
    (hfin : |(R : ℚ) * 2 ^ j| < 2 ^ 128) :
    roundToFloat ((R : ℚ) * 2 ^ j) = Floating.finite ((R : ℚ) * 2 ^ j) := by
  by_cases h0 : R = 0
  · subst h0
    simpa using roundToFloat_zero
  have hRq : (0 : ℚ) < |(R : ℚ)| := abs_pos.mpr (by exact_mod_cast h0)
  have hR1 : (1 : ℚ) ≤ |(R : ℚ)| := by
    have : (1 : ℤ) ≤ |R| := Int.one_le_abs h0
    exact_mod_cast this
  have hR2 : |(R : ℚ)| < 2 ^ (24 : ℤ) := by
    have h : ((|R| : ℤ) : ℚ) < ((2 ^ 24 : ℤ) : ℚ) := by exact_mod_cast hR
    rw [Int.cast_abs] at h
    norm_num at h ⊢
    exact h
  -- the binade of the significand
  have ha0 : 0 ≤ Int.log 2 |(R : ℚ)| :=
    (Int.zpow_le_iff_le_log (by norm_num) hRq).mp (by simpa using hR1)
  have ha1 : Int.log 2 |(R : ℚ)| < 24 :=
    (Int.lt_zpow_iff_log_lt (by norm_num) hRq).mp (by exact_mod_cast hR2)
  have hlo : (2 : ℚ) ^ (Int.log 2 |(R : ℚ)|) ≤ |(R : ℚ)| := by
    have := Int.zpow_log_le_self (b := 2) (r := |(R : ℚ)|) (by norm_num) hRq
    exact_mod_cast this
  have hhi : |(R : ℚ)| < (2 : ℚ) ^ (Int.log 2 |(R : ℚ)| + 1) := by
    have := Int.lt_zpow_succ_log_self (b := 2) (by norm_num) (|(R : ℚ)|)
    exact_mod_cast this
  generalize Int.log 2 |(R : ℚ)| = a at ha0 ha1 hlo hhi
  have h2j : (0 : ℚ) < 2 ^ j := by positivity
  have habs : |(R : ℚ) * 2 ^ j| = |(R : ℚ)| * 2 ^ j := by
    rw [abs_mul, abs_of_pos h2j]
  have hb1 : (2 : ℚ) ^ (a + j) ≤ |(R : ℚ) * 2 ^ j| := by
    rw [habs, zpow_add₀ (by norm_num), zpow_natCast]
    exact mul_le_mul_of_nonneg_right hlo (le_of_lt h2j)
  have hb2 : |(R : ℚ) * 2 ^ j| < (2 : ℚ) ^ (a + j + 1) := by
    rw [habs, show a + (j : ℤ) + 1 = (a + 1) + j by ring, zpow_add₀ (by norm_num), zpow_natCast]
    exact mul_lt_mul_of_pos_right hhi h2j
  -- the scaled significand is an integer
  obtain ⟨k, hk⟩ : ∃ k : ℕ, (k : ℤ) = 23 - a := ⟨(23 - a).toNat, Int.toNat_of_nonneg (by omega)⟩
  have hdiv : (R : ℚ) * 2 ^ j / 2 ^ (a + j - 23) = ((R * 2 ^ k : ℤ) : ℚ) := by
    have e1 : a + (j : ℤ) - 23 = (j : ℤ) - k := by omega
    rw [e1, zpow_sub₀ (by norm_num), zpow_natCast, zpow_natCast]
    push_cast
    field_simp
    ring
  have hval : ((R * 2 ^ k : ℤ) : ℚ) * 2 ^ (a + j - 23) = (R : ℚ) * 2 ^ j := by
    have e1 : a + (j : ℤ) - 23 = (j : ℤ) - k := by omega
    rw [e1, zpow_sub₀ (by norm_num), zpow_natCast, zpow_natCast]
    push_cast
    field_simp
    ring
  have h := roundToFloat_eq ((R : ℚ) * 2 ^ j) (a + j) (R * 2 ^ k) (by omega) hb1 hb2
    (by rw [hdiv]; exact roundTiesEven_intCast _) (by rw [hval]; exact hfin)
  rw [h, hval]

/-- An integer of fewer than 25 bits is a single-precision value. -/
theorem roundToFloat_int (n : ℤ) (h : |n| < 2 ^ 24) :
    roundToFloat (n : ℚ) = Floating.finite (n : ℚ) := by
  have hq : |(n : ℚ)| < 2 ^ 24 := by
    have : ((|n| : ℤ) : ℚ) < ((2 ^ 24 : ℤ) : ℚ) := by exact_mod_cast h
    push_cast at this
    exact this
  have := roundToFloat_scaled n 0 h (by
    rw [pow_zero, mul_one]
    exact lt_trans hq (by norm_num))
  simpa using this

/-- An integral raw distance below `2 ^ 24 / 10` is encoded as itself. -/
theorem roundedDistance_intCast (n : ℤ) (h : |n * 10| < 2 ^ 24) :
    roundedDistance (n : ℚ) = Floating.finite (n : ℚ) := by
  have e : (n : ℚ) * 10 = ((n * 10 : ℤ) : ℚ) := by push_cast; ring
  unfold roundedDistance
  rw [e, roundToFloat_int _ h]
  simp only
  rw [cround_intCast]
  congr 1
  push_cast
  field_simp

/-! ## The distance tables -/

/-- The tree cell of a non-sentinel raw distance whose single-precision product is finite. -/
theorem json_distanceCell_of_product (c : Constants) (raw product : ℚ)
    (hne : raw ≠ c.INVALID_EDGE_DISTANCE)
    (hp : roundToFloat (raw * 10) = Floating.finite product) :
    Json.distanceCell c raw = Value.Number ((cround product : ℚ) / 10) := by
  unfold Json.distanceCell roundedDistance
  rw [if_neg hne, hp]
  rfl

/-- The single-precision product `0.35f * 10` is `3.5`. -/
theorem roundToFloat_example_up :
    roundToFloat ((11744051 / 33554432 : ℚ) * 10) = Floating.finite (7 / 2) := by
  have h := roundToFloat_eq ((11744051 / 33554432 : ℚ) * 10) 1 14680064 (by norm_num)
    (by norm_num [abs_of_nonneg]) (by norm_num [abs_of_nonneg])
    (roundTiesEven_of_lt _ _ (by norm_num [abs_lt])) (by norm_num [abs_of_nonneg])
  rw [h]
  norm_num

/-- Reading the key just assigned gives the assigned value. -/
theorem Object.lookup_set_self (o : Object) (key : String) (v : Value) :
    (o.set key v).lookup key = some v := by
  induction o with
  | nil => simp [Object.set, Object.lookup]
  | cons kv rest ih =>
    obtain ⟨k, w⟩ := kv
    by_cases hk : k = key
    · simp [Object.set, Object.lookup, hk]
    · simp [Object.set, Object.lookup, hk, ih]

/-- An assignment leaves every other key as it was. -/
theorem Object.lookup_set_of_ne (o : Object) (key other : String) (v : Value)
    (hne : other ≠ key) : (o.set key v).lookup other = o.lookup other := by
  induction o with
  | nil => simp [Object.set, Object.lookup, Ne.symm hne]
  | cons kv rest ih =>
    obtain ⟨k, w⟩ := kv
    by_cases hk : k = key
    · have hko : ¬ k = other := fun h => hne (h ▸ hk)
      simp [Object.set, Object.lookup, hk, Ne.symm hne]
    · by_cases hko : k = other
      · subst hko
        simp [Object.set, Object.lookup, hk]
      · simp [Object.set, Object.lookup, hk, hko, ih]

/-- The tree emitter, once each of its parts is known to succeed. -/
theorem json_MakeResponse_of_parts {PhantomNode : Type} (c : Constants)
    (MakeWaypoint : PhantomNode → Object) (parameters : TableParameters)
    (tables : List EdgeWeight × List EdgeDistance) (phantoms : List PhantomNode)
    (fallback_speed_cells : List TableCellRef) (response : Object)
    (rows cols : ℕ) (s d dur dist : List Value)
    (hrows : rows = if parameters.sources = [] then phantoms.length
      else parameters.sources.length)
    (hcols : cols = if parameters.destinations = [] then phantoms.length
      else parameters.destinations.length)
    (hs : (if parameters.sources = [] then Json.MakeWaypoints MakeWaypoint parameters phantoms
      else Json.MakeWaypointsAt MakeWaypoint phantoms parameters.sources) = some s)
    (hd : (if parameters.destinations = [] then
        Json.MakeWaypoints MakeWaypoint parameters phantoms
      else Json.MakeWaypointsAt MakeWaypoint phantoms parameters.destinations) = some d)
    (hdur : parameters.annotations.and AnnotationsType.Duration = true →
      Json.MakeDurationTable c tables.1 rows cols = some dur)
    (hdist : parameters.annotations.and AnnotationsType.Distance = true →
      Json.MakeDistanceTable c tables.2 rows cols = some dist) :
    Json.MakeResponse c MakeWaypoint parameters tables phantoms fallback_speed_cells response =
      some (Object.set
        ((fun o : Object =>
            if parameters.fallback_speed ≠ c.INVALID_FALLBACK_SPEED ∧
                parameters.fallback_speed > 0 then
              o.set "fallback_speed_cells"
                (Value.Array (Json.MakeEstimatesTable fallback_speed_cells))
            else o)
          ((fun o : Object =>
              if parameters.annotations.and AnnotationsType.Distance = true then
                o.set "distances" (Value.Array dist)
              else o)
            ((fun o : Object =>
                if parameters.annotations.and AnnotationsType.Duration = true then
                  o.set "durations" (Value.Array dur)
                else o)
              ((response.set "sources" (Value.Array s)).set "destinations" (Value.Array d)))))
        "code" (Value.String "Ok")) := by
  by_cases h1 : parameters.sources = [] <;> by_cases h2 : parameters.destinations = [] <;>
    by_cases h3 : parameters.annotations.and AnnotationsType.Duration = true <;>
    by_cases h4 : parameters.annotations.and AnnotationsType.Distance = true <;>
    simp only [h1, h2, if_true, if_false] at hs hd hrows hcols <;>
    subst hrows <;> subst hcols <;>
    simp [Json.MakeResponse, h1, h2, h3, h4, hs, hd] <;>
    simp_all <;>
    split_ifs <;> rfl

/-- The keys of the object returned by the tree emitter, once each of its parts is known to
succeed: the six keys it assigns, and every other key unchanged. -/
theorem json_MakeResponse_lookups {PhantomNode : Type} (c : Constants)
    (MakeWaypoint : PhantomNode → Object) (parameters : TableParameters)
    (tables : List EdgeWeight × List EdgeDistance) (phantoms : List PhantomNode)
    (fallback_speed_cells : List TableCellRef) (response : Object)
    (rows cols : ℕ) (s d dur dist : List Value)
    (hrows : rows = if parameters.sources = [] then phantoms.length
      else parameters.sources.length)
    (hcols : cols = if parameters.destinations = [] then phantoms.length
      else parameters.destinations.length)
    (hs : (if parameters.sources = [] then Json.MakeWaypoints MakeWaypoint parameters phantoms
      else Json.MakeWaypointsAt MakeWaypoint phantoms parameters.sources) = some s)
    (hd : (if parameters.destinations = [] then
        Json.MakeWaypoints MakeWaypoint parameters phantoms
      else Json.MakeWaypointsAt MakeWaypoint phantoms parameters.destinations) = some d)
    (hdur : parameters.annotations.and AnnotationsType.Duration = true →
      Json.MakeDurationTable c tables.1 rows cols = some dur)
    (hdist : parameters.annotations.and AnnotationsType.Distance = true →
      Json.MakeDistanceTable c tables.2 rows cols = some dist) :
    ∃ out : Object,
      Json.MakeResponse c MakeWaypoint parameters tables phantoms fallback_speed_cells
        response = some out ∧
      out.lookup "sources" = some (Value.Array s) ∧
      out.lookup "destinations" = some (Value.Array d) ∧
      out.lookup "durations" =
        (if parameters.annotations.and AnnotationsType.Duration = true then
          some (Value.Array dur) else response.lookup "durations") ∧
      out.lookup "distances" =
        (if parameters.annotations.and AnnotationsType.Distance = true then
          some (Value.Array dist) else response.lookup "distances") ∧
      out.lookup "fallback_speed_cells" =
        (if parameters.fallback_speed ≠ c.INVALID_FALLBACK_SPEED ∧
            parameters.fallback_speed > 0 then
          some (Value.Array (Json.MakeEstimatesTable fallback_speed_cells))
        else response.lookup "fallback_speed_cells") ∧
      out.lookup "code" = some (Value.String "Ok") ∧
      ∀ key : String, key ≠ "sources" → key ≠ "destinations" → key ≠ "durations" →
        key ≠ "distances" → key ≠ "fallback_speed_cells" → key ≠ "code" →
        out.lookup key = response.lookup key := by
  refine ⟨_, json_MakeResponse_of_parts c MakeWaypoint parameters tables phantoms
    fallback_speed_cells response rows cols s d dur dist hrows hcols hs hd hdur hdist,
    ?_, ?_, ?_, ?_, ?_, ?_, ?_⟩
  · rw [Object.lookup_set_of_ne _ _ _ _ (by decide)]
    split_ifs <;>
      simp [Object.lookup_set_self, Object.lookup_set_of_ne]
  · rw [Object.lookup_set_of_ne _ _ _ _ (by decide)]
    split_ifs <;>
      simp [Object.lookup_set_self, Object.lookup_set_of_ne]
  · rw [Object.lookup_set_of_ne _ _ _ _ (by decide)]
    split_ifs <;>
      simp [Object.lookup_set_self, Object.lookup_set_of_ne]
  · rw [Object.lookup_set_of_ne _ _ _ _ (by decide)]
    split_ifs <;>
      simp [Object.lookup_set_self, Object.lookup_set_of_ne]
  · rw [Object.lookup_set_of_ne _ _ _ _ (by decide)]
    split_ifs <;>
      simp [Object.lookup_set_self, Object.lookup_set_of_ne]
  · exact Object.lookup_set_self _ _ _
  · intro key k1 k2 k3 k4 k5 k6
    rw [Object.lookup_set_of_ne _ _ _ _ k6]
    split_ifs <;>
      simp [Object.lookup_set_of_ne, k1, k2, k3, k4, k5]

/-- The payload builder of the binary emitter, once each of its parts is known to succeed: it
holds the two waypoint lists and the gated tables. -/
theorem fb_MakeResponseTable_of_parts {PhantomNode Waypoint : Type} (c : Constants)
    (MakeWaypoint : PhantomNode → Waypoint) (parameters : TableParameters)
    (tables : List EdgeWeight × List EdgeDistance) (phantoms : List PhantomNode)
    (fallback_speed_cells : List TableCellRef)
    (rows cols : ℕ) (s d : List Waypoint) (dur : List VectorDouble)
    (dist : List VectorFloating)
    (hrows : rows = if parameters.sources = [] then phantoms.length
      else parameters.sources.length)
    (hcols : cols = if parameters.destinations = [] then phantoms.length
      else parameters.destinations.length)
    (hs : (if parameters.sources = [] then Fb.MakeWaypoints MakeWaypoint parameters phantoms
      else Fb.MakeWaypointsAt MakeWaypoint phantoms parameters.sources) = some s)
    (hd : (if parameters.destinations = [] then
        Fb.MakeWaypoints MakeWaypoint parameters phantoms
      else Fb.MakeWaypointsAt MakeWaypoint phantoms parameters.destinations) = some d)
    (hdur : parameters.annotations.and AnnotationsType.Duration = true →
      Fb.MakeDurationTable c tables.1 rows cols = some dur)
    (hdist : parameters.annotations.and AnnotationsType.Distance = true →
      Fb.MakeDistanceTable c tables.2 rows cols = some dist) :
    Fb.MakeResponseTable c MakeWaypoint parameters tables phantoms fallback_speed_cells =
      some
        ({ sources := some s,
           destinations := some d,
           durations :=
            if parameters.annotations.and AnnotationsType.Duration = true then some dur
            else none,
           distances :=
            if parameters.annotations.and AnnotationsType.Distance = true then some dist
            else none,
           fallback_speed_cells :=
            if parameters.fallback_speed ≠ c.INVALID_FALLBACK_SPEED ∧
                parameters.fallback_speed > 0 then
              some (Fb.MakeEstimatesTable fallback_speed_cells)
            else none }) := by
  by_cases h1 : parameters.sources = [] <;> by_cases h2 : parameters.destinations = [] <;>
    by_cases h3 : parameters.annotations.and AnnotationsType.Duration = true <;>
    by_cases h4 : parameters.annotations.and AnnotationsType.Distance = true <;>
    simp only [h1, h2, if_true, if_false] at hs hd hrows hcols <;>
    subst hrows <;> subst hcols <;>
    simp [Fb.MakeResponseTable, h1, h2, h3, h4, hs, hd, TableBuilder.start,
      TableBuilder.add_sources, TableBuilder.add_destinations, TableBuilder.add_durations,
      TableBuilder.add_distances, TableBuilder.add_fallback_speed_cells] <;>
    simp_all <;>
    split_ifs <;> rfl

/-- The indexed waypoint transform: with every index in range it succeeds, and its output
follows the index sequence element by element. -/
theorem transformM_index_spec {P W : Type} (g : P → W) (phantoms : List P) (indices : List ℕ)
    (h : ∀ idx ∈ indices, idx < phantoms.length) :
    ∃ out : List W,
      transformM
        (fun idx =>
          if h : idx < phantoms.length then some (g (phantoms.get ⟨idx, h⟩)) else none)
        indices = some out ∧
      out.length = indices.length ∧
      ∀ i, i < indices.length → ∃ (idx : ℕ) (p : P),
        indices[i]? = some idx ∧ phantoms[idx]? = some p ∧ out[i]? = some (g p) := by
  induction indices with
  | nil => exact ⟨[], rfl, rfl, fun i hi => absurd hi (Nat.not_lt_zero i)⟩
  | cons a as ih =>
    have ha : a < phantoms.length := h a (List.mem_cons_self a as)
    obtain ⟨out, h1, h2, h3⟩ := ih (fun x hx => h x (List.mem_cons_of_mem a hx))
    refine ⟨g (phantoms.get ⟨a, ha⟩) :: out, ?_, ?_, ?_⟩
    · rw [transformM, h1, dif_pos ha]
    · simp [h2]
    · intro i hi
      cases i with
      | zero =>
        exact ⟨a, phantoms.get ⟨a, ha⟩, by simp, List.getElem?_eq_getElem ha, by simp⟩
      | succ j =>
        have hj : j < as.length := by simpa using hi
        obtain ⟨idx, p, e1, e2, e3⟩ := h3 j hj
        exact ⟨idx, p, by simpa using e1, e2, by simpa using e3⟩

/-- C6. Asymmetric waypoint order: when every index is below the number of points, both
`MakeWaypoints(phantoms, indices)` overloads succeed (no lookup fails) and return a list as
long as `indices` whose `i`-th element is the descriptor of `phantoms[indices[i]]`; the output
follows the supplied sequence, duplicates and non-monotonic order included. -/
theorem MakeWaypointsAt_spec {PhantomNode Waypoint : Type}
    (describeJson : PhantomNode → Object) (describeFb : PhantomNode → Waypoint)
    (phantoms : List PhantomNode) (indices : List ℕ)
    (h : ∀ idx ∈ indices, idx < phantoms.length) :
    (∃ out : List Value,
      Json.MakeWaypointsAt describeJson phantoms indices = some out ∧
      out.length = indices.length ∧
      ∀ i, i < indices.length → ∃ (idx : ℕ) (p : PhantomNode),
        indices[i]? = some idx ∧ phantoms[idx]? = some p ∧
        out[i]? = some (Value.Object (describeJson p))) ∧
    (∃ out : List Waypoint,
      Fb.MakeWaypointsAt describeFb phantoms indices = some out ∧
      out.length = indices.length ∧
      ∀ i, i < indices.length → ∃ (idx : ℕ) (p : PhantomNode),
        indices[i]? = some idx ∧ phantoms[idx]? = some p ∧
        out[i]? = some (describeFb p)) :=
  ⟨transformM_index_spec (fun p => Value.Object (describeJson p)) phantoms indices h,
   transformM_index_spec describeFb phantoms indices h⟩

/-- C6, at three points and the index sequence `[2, 0, 2]`. -/
theorem MakeWaypointsAt_spec_witness :
    (∀ idx ∈ ([2, 0, 2] : List ℕ), idx < ([10, 20, 30] : List ℕ).length) ∧
    ((∃ out : List Value,
      Json.MakeWaypointsAt (fun n : ℕ => [("location", Value.Number (n : ℚ))]) [10, 20, 30]
        [2, 0, 2] = some out ∧
      out.length = ([2, 0, 2] : List ℕ).length ∧
      ∀ i, i < ([2, 0, 2] : List ℕ).length → ∃ (idx : ℕ) (p : ℕ),
        ([2, 0, 2] : List ℕ)[i]? = some idx ∧ ([10, 20, 30] : List ℕ)[idx]? = some p ∧
        out[i]? = some (Value.Object [("location", Value.Number (p : ℚ))])) ∧
    (∃ out : List ℕ,
      Fb.MakeWaypointsAt (fun n : ℕ => n + 1) [10, 20, 30] [2, 0, 2] = some out ∧
      out.length = ([2, 0, 2] : List ℕ).length ∧
      ∀ i, i < ([2, 0, 2] : List ℕ).length → ∃ (idx : ℕ) (p : ℕ),
        ([2, 0, 2] : List ℕ)[i]? = some idx ∧ ([10, 20, 30] : List ℕ)[idx]? = some p ∧
        out[i]? = some (p + 1))) :=
  ⟨by decide,
   MakeWaypointsAt_spec (fun n : ℕ => [("location", Value.Number (n : ℚ))])
     (fun n : ℕ => n + 1) [10, 20, 30] [2, 0, 2] (by decide)⟩

/-- The waypoint list of one side of the tree response, for a valid selection. -/
theorem json_waypoints_sel {PhantomNode : Type} (MakeWaypoint : PhantomNode → Object)
    (parameters : TableParameters) (phantoms : List PhantomNode) (sel : List ℕ)
    (h1 : ∀ idx ∈ sel, idx < phantoms.length)
    (h2 : sel = [] → phantoms.length = parameters.coordinates.length) :
    ∃ s : List Value,
      (if sel = [] then Json.MakeWaypoints MakeWaypoint parameters phantoms
        else Json.MakeWaypointsAt MakeWaypoint phantoms sel) = some s ∧
      (sel = [] → s = phantoms.map fun p => Value.Object (MakeWaypoint p)) ∧
      (sel ≠ [] → Json.MakeWaypointsAt MakeWaypoint phantoms sel = some s) := by
  by_cases h : sel = []
  · refine ⟨phantoms.map fun p => Value.Object (MakeWaypoint p), ?_, fun _ => rfl,
      fun hne => absurd h hne⟩
    simp [h, Json.MakeWaypoints, h2 h]
  · obtain ⟨s, hs, _, _⟩ :=
      transformM_index_spec (fun p => Value.Object (MakeWaypoint p)) phantoms sel h1
    exact ⟨s, by rw [if_neg h]; exact hs, fun he => absurd he h, fun _ => hs⟩

/-- The waypoint list of one side of the binary payload, for a valid selection. -/
theorem fb_waypoints_sel {PhantomNode Waypoint : Type} (MakeWaypoint : PhantomNode → Waypoint)
    (parameters : TableParameters) (phantoms : List PhantomNode) (sel : List ℕ)
    (h1 : ∀ idx ∈ sel, idx < phantoms.length)
    (h2 : sel = [] → phantoms.length = parameters.coordinates.length) :
    ∃ s : List Waypoint,
      (if sel = [] then Fb.MakeWaypoints MakeWaypoint parameters phantoms
        else Fb.MakeWaypointsAt MakeWaypoint phantoms sel) = some s ∧
      (sel = [] → s = phantoms.map MakeWaypoint) ∧
      (sel ≠ [] → Fb.MakeWaypointsAt MakeWaypoint phantoms sel = some s) := by
  by_cases h : sel = []
  · refine ⟨phantoms.map MakeWaypoint, ?_, fun _ => rfl, fun hne => absurd h hne⟩
    simp [h, Fb.MakeWaypoints, h2 h]
  · obtain ⟨s, hs, _, _⟩ := transformM_index_spec MakeWaypoint phantoms sel h1
    exact ⟨s, by rw [if_neg h]; exact hs, fun he => absurd he h, fun _ => hs⟩

/-- A table builder that is only called when its flag is set: some table satisfies the
conditional equation. -/
theorem gated_table {β : Type} (flag : Prop) (build : Option (List β))
    (h : flag → ∃ t, build = some t) : ∃ t : List β, flag → build = some t := by
  by_cases hf : flag
  · obtain ⟨t, ht⟩ := h hf
    exact ⟨t, fun _ => ht⟩
  · exact ⟨[], fun hf2 => absurd hf2 hf⟩

/-- Both emitters on a valid input: each succeeds, and the keys of the tree object and the
fields of the binary payload are the parts built by the `Make...` functions for the projected
row and column counts. -/
theorem MakeResponse_valid {PhantomNode Waypoint : Type} (c : Constants)
    (describeJson : PhantomNode → Object) (describeFb : PhantomNode → Waypoint)
    (parameters : TableParameters) (tables : List EdgeWeight × List EdgeDistance)
    (phantoms : List PhantomNode) (fallback_speed_cells : List TableCellRef)
    (response : Object) (rows cols : ℕ)
    (hv : ValidInput parameters tables phantoms)
    (hrows : rows = if parameters.sources = [] then phantoms.length
      else parameters.sources.length)
    (hcols : cols = if parameters.destinations = [] then phantoms.length
      else parameters.destinations.length) :
    ∃ (out : Object) (tb : Table Waypoint) (sJ dJ durJ distJ : List Value)
      (sF dF : List Waypoint) (durF : List VectorDouble)
      (distF : List VectorFloating),
      Json.MakeResponse c describeJson parameters tables phantoms fallback_speed_cells
        response = some out ∧
      Fb.MakeResponseTable c describeFb parameters tables phantoms fallback_speed_cells =
        some tb ∧
      (parameters.sources = [] →
        sJ = phantoms.map (fun p => Value.Object (describeJson p)) ∧
        sF = phantoms.map describeFb) ∧
      (parameters.sources ≠ [] →
        Json.MakeWaypointsAt describeJson phantoms parameters.sources = some sJ ∧
        Fb.MakeWaypointsAt describeFb phantoms parameters.sources = some sF) ∧
      (parameters.destinations = [] →
        dJ = phantoms.map (fun p => Value.Object (describeJson p)) ∧
        dF = phantoms.map describeFb) ∧
      (parameters.destinations ≠ [] →
        Json.MakeWaypointsAt describeJson phantoms parameters.destinations = some dJ ∧
        Fb.MakeWaypointsAt describeFb phantoms parameters.destinations = some dF) ∧
      (parameters.annotations.and AnnotationsType.Duration = true →
        tables.1.length = rows * cols ∧
        Json.MakeDurationTable c tables.1 rows cols = some durJ ∧
        Fb.MakeDurationTable c tables.1 rows cols = some durF) ∧
      (parameters.annotations.and AnnotationsType.Distance = true →
        tables.2.length = rows * cols ∧
        Json.MakeDistanceTable c tables.2 rows cols = some distJ ∧
        Fb.MakeDistanceTable c tables.2 rows cols = some distF) ∧
      (out.lookup "sources" = some (Value.Array sJ) ∧
       out.lookup "destinations" = some (Value.Array dJ) ∧
       out.lookup "durations" =
        (if parameters.annotations.and AnnotationsType.Duration = true then
          some (Value.Array durJ) else response.lookup "durations") ∧
       out.lookup "distances" =
        (if parameters.annotations.and AnnotationsType.Distance = true then
          some (Value.Array distJ) else response.lookup "distances") ∧
       out.lookup "fallback_speed_cells" =
        (if parameters.fallback_speed ≠ c.INVALID_FALLBACK_SPEED ∧
            parameters.fallback_speed > 0 then
          some (Value.Array (Json.MakeEstimatesTable fallback_speed_cells))
        else response.lookup "fallback_speed_cells") ∧
       out.lookup "code" = some (Value.String "Ok") ∧
       ∀ key : String, key ≠ "sources" → key ≠ "destinations" → key ≠ "durations" →
        key ≠ "distances" → key ≠ "fallback_speed_cells" → key ≠ "code" →
        out.lookup key = response.lookup key) ∧
      tb =
        { sources := some sF,
          destinations := some dF,
          durations :=
            if parameters.annotations.and AnnotationsType.Duration = true then some durF
            else none,
          distances :=
            if parameters.annotations.and AnnotationsType.Distance = true then some distF
            else none,
          fallback_speed_cells :=
            if parameters.fallback_speed ≠ c.INVALID_FALLBACK_SPEED ∧
                parameters.fallback_speed > 0 then
              some (Fb.MakeEstimatesTable fallback_speed_cells)
            else none } := by
  obtain ⟨v1, v2, v3, v4, v5⟩ := hv
  rw [← hrows, ← hcols] at v4 v5
  obtain ⟨sJ, hsJ, hsJ1, hsJ2⟩ := json_waypoints_sel describeJson parameters phantoms
    parameters.sources v1 (fun h => v3 (Or.inl h))
  obtain ⟨dJ, hdJ, hdJ1, hdJ2⟩ := json_waypoints_sel describeJson parameters phantoms
    parameters.destinations v2 (fun h => v3 (Or.inr h))
  obtain ⟨sF, hsF, hsF1, hsF2⟩ := fb_waypoints_sel describeFb parameters phantoms
    parameters.sources v1 (fun h => v3 (Or.inl h))
  obtain ⟨dF, hdF, hdF1, hdF2⟩ := fb_waypoints_sel describeFb parameters phantoms
    parameters.destinations v2 (fun h => v3 (Or.inr h))
  obtain ⟨durJ, hdurJ⟩ := gated_table _ (Json.MakeDurationTable c tables.1 rows cols)
    (fun hf => (table_rows_spec (Json.durationCell c) Value.Array tables.1 rows cols
      (le_of_eq (v4 hf).symm)).imp fun _ h => h.1)
  obtain ⟨durF, hdurF⟩ := gated_table _ (Fb.MakeDurationTable c tables.1 rows cols)
    (fun hf => (table_rows_spec (Fb.durationCell c) (fun cells => cells) tables.1 rows cols
      (le_of_eq (v4 hf).symm)).imp fun _ h => h.1)
  obtain ⟨distJ, hdistJ⟩ := gated_table _ (Json.MakeDistanceTable c tables.2 rows cols)
    (fun hf => (table_rows_spec (Json.distanceCell c) Value.Array tables.2 rows cols
      (le_of_eq (v5 hf).symm)).imp fun _ h => h.1)
  obtain ⟨distF, hdistF⟩ := gated_table _ (Fb.MakeDistanceTable c tables.2 rows cols)
    (fun hf => (table_rows_spec (Fb.distanceCell c) (fun cells => cells) tables.2 rows cols
      (le_of_eq (v5 hf).symm)).imp fun _ h => h.1)
  obtain ⟨out, hout, hlook⟩ := json_MakeResponse_lookups c describeJson parameters tables
    phantoms fallback_speed_cells response rows cols sJ dJ durJ distJ hrows hcols hsJ hdJ
    hdurJ hdistJ
  exact ⟨out, _, sJ, dJ, durJ, distJ, sF, dF, durF, distF, hout,
    fb_MakeResponseTable_of_parts c describeFb parameters tables phantoms
      fallback_speed_cells rows cols sF dF durF distF hrows hcols hsF hdF hdurF hdistF,
    fun h => ⟨hsJ1 h, hsF1 h⟩, fun h => ⟨hsJ2 h, hsF2 h⟩,
    fun h => ⟨hdJ1 h, hdF1 h⟩, fun h => ⟨hdJ2 h, hdF2 h⟩,
    fun h => ⟨v4 h, hdurJ h, hdurF h⟩, fun h => ⟨v5 h, hdistJ h, hdistF h⟩,
    hlook, rfl⟩

/-- The shape of a successfully built table: `rows` rows of `cols` cells. -/
theorem table_shape_of_eq {α β γ : Type} (cell : α → β) (wrap : List β → γ) (values : List α)
    (rows cols : ℕ) (table : List γ) (hlen : values.length = rows * cols)
    (h : transformM (fun row => (rowRange values row cols).map fun cells => wrap (cells.map cell))
      (List.range rows) = some table) :
    table.length = rows ∧
    ∀ r, r < rows → ∃ cells : List β, table[r]? = some (wrap cells) ∧ cells.length = cols := by
  obtain ⟨t, e, hl, hs⟩ := table_rows_spec cell wrap values rows cols (le_of_eq hlen.symm)
  have ht : t = table := Option.some.inj (e.symm.trans h)
  subst ht
  exact ⟨hl, fun r hr => (hs r hr).imp fun _ hc => ⟨hc.1, hc.2.1⟩⟩

/-- Both emitters on a valid input: the waypoint lists and the shapes of the gated tables. -/
theorem MakeResponse_valid_shape {PhantomNode Waypoint : Type} (c : Constants)
    (describeJson : PhantomNode → Object) (describeFb : PhantomNode → Waypoint)
    (parameters : TableParameters) (tables : List EdgeWeight × List EdgeDistance)
    (phantoms : List PhantomNode) (fallback_speed_cells : List TableCellRef)
    (response : Object) (rows cols : ℕ)
    (hv : ValidInput parameters tables phantoms)
    (hrows : rows = if parameters.sources = [] then phantoms.length
      else parameters.sources.length)
    (hcols : cols = if parameters.destinations = [] then phantoms.length
      else parameters.destinations.length) :
    ∃ (out : Object) (tb : Table Waypoint) (sJ dJ : List Value) (sF dF : List Waypoint),
      Json.MakeResponse c describeJson parameters tables phantoms fallback_speed_cells
        response = some out ∧
      Fb.MakeResponseTable c describeFb parameters tables phantoms fallback_speed_cells =
        some tb ∧
      out.lookup "sources" = some (Value.Array sJ) ∧
      out.lookup "destinations" = some (Value.Array dJ) ∧
      tb.sources = some sF ∧ tb.destinations = some dF ∧
      (parameters.sources = [] →
        sJ = phantoms.map (fun p => Value.Object (describeJson p)) ∧
        sF = phantoms.map describeFb) ∧
      (parameters.destinations = [] →
        dJ = phantoms.map (fun p => Value.Object (describeJson p)) ∧
        dF = phantoms.map describeFb) ∧
      (parameters.annotations.and AnnotationsType.Duration = true →
        ∃ (jt : List Value) (ft : List VectorDouble),
          Json.MakeDurationTable c tables.1 rows cols = some jt ∧
          Fb.MakeDurationTable c tables.1 rows cols = some ft ∧
          out.lookup "durations" = some (Value.Array jt) ∧ tb.durations = some ft ∧
          jt.length = rows ∧ ft.length = rows ∧
          ∀ r, r < rows →
            (∃ cells : List Value, jt[r]? = some (Value.Array cells) ∧ cells.length = cols) ∧
            (∃ cells : VectorDouble, ft[r]? = some cells ∧ cells.length = cols)) ∧
      (parameters.annotations.and AnnotationsType.Distance = true →
        ∃ (jt : List Value) (ft : List VectorFloating),
          Json.MakeDistanceTable c tables.2 rows cols = some jt ∧
          Fb.MakeDistanceTable c tables.2 rows cols = some ft ∧
          out.lookup "distances" = some (Value.Array jt) ∧ tb.distances = some ft ∧
          jt.length = rows ∧ ft.length = rows ∧
          ∀ r, r < rows →
            (∃ cells : List Value, jt[r]? = some (Value.Array cells) ∧ cells.length = cols) ∧
            (∃ cells : VectorFloating, ft[r]? = some cells ∧ cells.length = cols)) := by
  obtain ⟨out, tb, sJ, dJ, durJ, distJ, sF, dF, durF, distF, hout, hb, hs1, _, hd1, _, hdur,
    hdist, ⟨l1, l2, l3, l4, _, _, _⟩, htb⟩ :=
    MakeResponse_valid c describeJson describeFb parameters tables phantoms
      fallback_speed_cells response rows cols hv hrows hcols
  refine ⟨out, tb, sJ, dJ, sF, dF, hout, hb, l1, l2, by rw [htb], by rw [htb], hs1, hd1,
    ?_, ?_⟩
  · intro hf
    obtain ⟨hlen, eJ, eF⟩ := hdur hf
    obtain ⟨a1, a2⟩ := table_shape_of_eq (Json.durationCell c) Value.Array tables.1 rows cols
      durJ hlen eJ
    obtain ⟨b1, b2⟩ := table_shape_of_eq (Fb.durationCell c) (fun cells => cells) tables.1
      rows cols durF hlen eF
    refine ⟨durJ, durF, eJ, eF, ?_, ?_, a1, b1, fun r hr => ⟨a2 r hr, b2 r hr⟩⟩
    · rw [l3, if_pos hf]
    · rw [htb]
      simp [hf]
  · intro hf
    obtain ⟨hlen, eJ, eF⟩ := hdist hf
    obtain ⟨a1, a2⟩ := table_shape_of_eq (Json.distanceCell c) Value.Array tables.2 rows cols
      distJ hlen eJ
    obtain ⟨b1, b2⟩ := table_shape_of_eq (Fb.distanceCell c) (fun cells => cells) tables.2
      rows cols distF hlen eF
    refine ⟨distJ, distF, eJ, eF, ?_, ?_, a1, b1, fun r hr => ⟨a2 r hr, b2 r hr⟩⟩
    · rw [l4, if_pos hf]
    · rw [htb]
      simp [hf]

/-- C5. Index projection: on a valid input both `MakeResponse` emitters build the duration and
the distance table with `rows = |sources|` when `sources` is non-empty and the number of points
otherwise, and `cols = |destinations|` when `destinations` is non-empty and the number of
points otherwise, the two sides being resolved independently: each requested table is the
result of the table builder called with `(rows, cols)`, it is stored under its key of the tree
object and in its field of the binary payload, and it has `rows` rows of `cols` cells. -/
theorem MakeResponse_table_dimensions {PhantomNode Waypoint : Type} (c : Constants)
    (describeJson : PhantomNode → Object) (describeFb : PhantomNode → Waypoint)
    (parameters : TableParameters) (tables : List EdgeWeight × List EdgeDistance)
    (phantoms : List PhantomNode) (fallback_speed_cells : List TableCellRef)
    (response : Object) (rows cols : ℕ)
    (hv : ValidInput parameters tables phantoms)
    (hrows : rows = if parameters.sources = [] then phantoms.length
      else parameters.sources.length)
    (hcols : cols = if parameters.destinations = [] then phantoms.length
      else parameters.destinations.length) :
    ∃ (out : Object) (tb : Table Waypoint),
      Json.MakeResponse c describeJson parameters tables phantoms fallback_speed_cells
        response = some out ∧
      Fb.MakeResponseTable c describeFb parameters tables phantoms fallback_speed_cells =
        some tb ∧
      (parameters.annotations.and AnnotationsType.Duration = true →
        ∃ (jt : List Value) (ft : List VectorDouble),
          Json.MakeDurationTable c tables.1 rows cols = some jt ∧
          Fb.MakeDurationTable c tables.1 rows cols = some ft ∧
          out.lookup "durations" = some (Value.Array jt) ∧ tb.durations = some ft ∧
          jt.length = rows ∧ ft.length = rows ∧
          ∀ r, r < rows →
            (∃ cells : List Value, jt[r]? = some (Value.Array cells) ∧ cells.length = cols) ∧
            (∃ cells : VectorDouble, ft[r]? = some cells ∧ cells.length = cols)) ∧
      (parameters.annotations.and AnnotationsType.Distance = true →
        ∃ (jt : List Value) (ft : List VectorFloating),
          Json.MakeDistanceTable c tables.2 rows cols = some jt ∧
          Fb.MakeDistanceTable c tables.2 rows cols = some ft ∧
          out.lookup "distances" = some (Value.Array jt) ∧ tb.distances = some ft ∧
          jt.length = rows ∧ ft.length = rows ∧
          ∀ r, r < rows →
            (∃ cells : List Value, jt[r]? = some (Value.Array cells) ∧ cells.length = cols) ∧
            (∃ cells : VectorFloating, ft[r]? = some cells ∧ cells.length = cols)) := by
  obtain ⟨out, tb, _, _, _, _, hout, hb, _, _, _, _, _, _, hdur, hdist⟩ :=
    MakeResponse_valid_shape c describeJson describeFb parameters tables phantoms
      fallback_speed_cells response rows cols hv hrows hcols
  exact ⟨out, tb, hout, hb, hdur, hdist⟩

/-- C5, at three points with `sources = [0, 2]` and no destinations: a 2 x 3 table. -/
theorem MakeResponse_table_dimensions_witness :
    (ValidInput Sample.parameters Sample.tables Sample.phantoms) ∧
    (2 = if Sample.parameters.sources = [] then Sample.phantoms.length
      else Sample.parameters.sources.length) ∧
    (3 = if Sample.parameters.destinations = [] then Sample.phantoms.length
      else Sample.parameters.destinations.length) ∧
    (∃ (out : Object) (tb : Table ℕ),
      Json.MakeResponse Sample.constants Sample.describeJson Sample.parameters Sample.tables
        Sample.phantoms Sample.fallback_speed_cells ([] : Object) = some out ∧
      Fb.MakeResponseTable Sample.constants Sample.describeFb Sample.parameters Sample.tables
        Sample.phantoms Sample.fallback_speed_cells = some tb ∧
      (Sample.parameters.annotations.and AnnotationsType.Duration = true →
        ∃ (jt : List Value) (ft : List VectorDouble),
          Json.MakeDurationTable Sample.constants Sample.tables.1 2 3 = some jt ∧
          Fb.MakeDurationTable Sample.constants Sample.tables.1 2 3 = some ft ∧
          out.lookup "durations" = some (Value.Array jt) ∧ tb.durations = some ft ∧
          jt.length = 2 ∧ ft.length = 2 ∧
          ∀ r, r < 2 →
            (∃ cells : List Value, jt[r]? = some (Value.Array cells) ∧ cells.length = 3) ∧
            (∃ cells : VectorDouble, ft[r]? = some cells ∧ cells.length = 3)) ∧
      (Sample.parameters.annotations.and AnnotationsType.Distance = true →
        ∃ (jt : List Value) (ft : List VectorFloating),
          Json.MakeDistanceTable Sample.constants Sample.tables.2 2 3 = some jt ∧
          Fb.MakeDistanceTable Sample.constants Sample.tables.2 2 3 = some ft ∧
          out.lookup "distances" = some (Value.Array jt) ∧ tb.distances = some ft ∧
          jt.length = 2 ∧ ft.length = 2 ∧
          ∀ r, r < 2 →
            (∃ cells : List Value, jt[r]? = some (Value.Array cells) ∧ cells.length = 3) ∧
            (∃ cells : VectorFloating, ft[r]? = some cells ∧ cells.length = 3))) :=
  ⟨by decide, by decide, by decide,
   MakeResponse_table_dimensions Sample.constants Sample.describeJson Sample.describeFb
     Sample.parameters Sample.tables Sample.phantoms
     Sample.fallback_speed_cells ([] : Object) 2 3
     (by decide) (by decide) (by decide)⟩


/-- What both emitters build in the symmetric case: on a valid input, whenever `sources`
(respectively `destinations`) is empty, the list stored under that key of the tree object and
the list added to the binary payload builder are the descriptors of every point of the full
list in natural order, as many as there are points, and every requested table has that many
rows (respectively that many cells in every row). -/
theorem MakeResponse_symmetric_built {PhantomNode Waypoint : Type} (c : Constants)
    (describeJson : PhantomNode → Object) (describeFb : PhantomNode → Waypoint)
    (parameters : TableParameters) (tables : List EdgeWeight × List EdgeDistance)
    (phantoms : List PhantomNode) (fallback_speed_cells : List TableCellRef)
    (response : Object)
    (hv : ValidInput parameters tables phantoms) :
    ∃ (out : Object) (tb : Table Waypoint),
      Json.MakeResponse c describeJson parameters tables phantoms fallback_speed_cells
        response = some out ∧
      Fb.MakeResponseTable c describeFb parameters tables phantoms fallback_speed_cells =
        some tb ∧
      (parameters.sources = [] →
        out.lookup "sources" =
          some (Value.Array (phantoms.map fun p => Value.Object (describeJson p))) ∧
        tb.sources = some (phantoms.map describeFb) ∧
        (phantoms.map fun p => Value.Object (describeJson p)).length = phantoms.length ∧
        (phantoms.map describeFb).length = phantoms.length ∧
        (parameters.annotations.and AnnotationsType.Duration = true →
          ∃ (jt : List Value) (ft : List VectorDouble),
            out.lookup "durations" = some (Value.Array jt) ∧ tb.durations = some ft ∧
            jt.length = phantoms.length ∧ ft.length = phantoms.length) ∧
        (parameters.annotations.and AnnotationsType.Distance = true →
          ∃ (jt : List Value) (ft : List VectorFloating),
            out.lookup "distances" = some (Value.Array jt) ∧ tb.distances = some ft ∧
            jt.length = phantoms.length ∧ ft.length = phantoms.length)) ∧
      (parameters.destinations = [] →
        out.lookup "destinations" =
          some (Value.Array (phantoms.map fun p => Value.Object (describeJson p))) ∧
        tb.destinations = some (phantoms.map describeFb) ∧
        (phantoms.map fun p => Value.Object (describeJson p)).length = phantoms.length ∧
        (phantoms.map describeFb).length = phantoms.length ∧
        (parameters.annotations.and AnnotationsType.Duration = true →
          ∃ (jt : List Value) (ft : List VectorDouble),
            out.lookup "durations" = some (Value.Array jt) ∧ tb.durations = some ft ∧
            (∀ r, r < jt.length → ∃ cells : List Value,
              jt[r]? = some (Value.Array cells) ∧ cells.length = phantoms.length) ∧
            (∀ r, r < ft.length → ∃ cells : VectorDouble,
              ft[r]? = some cells ∧ cells.length = phantoms.length)) ∧
        (parameters.annotations.and AnnotationsType.Distance = true →
          ∃ (jt : List Value) (ft : List VectorFloating),
            out.lookup "distances" = some (Value.Array jt) ∧ tb.distances = some ft ∧
            (∀ r, r < jt.length → ∃ cells : List Value,
              jt[r]? = some (Value.Array cells) ∧ cells.length = phantoms.length) ∧
            (∀ r, r < ft.length → ∃ cells : VectorFloating,
              ft[r]? = some cells ∧ cells.length = phantoms.length))) := by
  obtain ⟨out, tb, sJ, dJ, sF, dF, hout, hb, l1, l2, t1, t2, hs, hd, hdur, hdist⟩ :=
    MakeResponse_valid_shape c describeJson describeFb parameters tables phantoms
      fallback_speed_cells response
      (if parameters.sources = [] then phantoms.length else parameters.sources.length)
      (if parameters.destinations = [] then phantoms.length
        else parameters.destinations.length) hv rfl rfl
  refine ⟨out, tb, hout, hb, ?_, ?_⟩
  · intro h
    obtain ⟨e1, e2⟩ := hs h
    rw [if_pos h] at hdur hdist
    refine ⟨by rw [l1, e1], by rw [t1, e2], List.length_map _ _, List.length_map _ _, ?_, ?_⟩
    · intro hf
      obtain ⟨jt, ft, _, _, a1, a2, a3, a4, _⟩ := hdur hf
      exact ⟨jt, ft, a1, a2, a3, a4⟩
    · intro hf
      obtain ⟨jt, ft, _, _, a1, a2, a3, a4, _⟩ := hdist hf
      exact ⟨jt, ft, a1, a2, a3, a4⟩
  · intro h
    obtain ⟨e1, e2⟩ := hd h
    rw [if_pos h] at hdur hdist
    refine ⟨by rw [l2, e1], by rw [t2, e2], List.length_map _ _, List.length_map _ _, ?_, ?_⟩
    · intro hf
      obtain ⟨jt, ft, _, _, a1, a2, a3, a4, a5⟩ := hdur hf
      exact ⟨jt, ft, a1, a2, fun r hr => (a5 r (a3 ▸ hr)).1, fun r hr => (a5 r (a4 ▸ hr)).2⟩
    · intro hf
      obtain ⟨jt, ft, _, _, a1, a2, a3, a4, a5⟩ := hdist hf
      exact ⟨jt, ft, a1, a2, fun r hr => (a5 r (a3 ▸ hr)).1, fun r hr => (a5 r (a4 ▸ hr)).2⟩

/-- The test `annotations & Duration` holds exactly for the values `Duration` and `All`. -/
theorem AnnotationsType.and_Duration_iff (a : AnnotationsType) :
    a.and AnnotationsType.Duration = true ↔
      (a = AnnotationsType.Duration ∨ a = AnnotationsType.All) := by
  cases a <;> simp [AnnotationsType.and, AnnotationsType.underlying]

/-- The test `annotations & Distance` holds exactly for the values `Distance` and `All`. -/
theorem AnnotationsType.and_Distance_iff (a : AnnotationsType) :
    a.and AnnotationsType.Distance = true ↔
      (a = AnnotationsType.Distance ∨ a = AnnotationsType.All) := by
  cases a <;> simp [AnnotationsType.and, AnnotationsType.underlying]

/-- Annotation gating of what the emitters build: on a valid input and an initially empty
response object, the key `durations` of the tree object is present exactly when the Duration
flag is set and the key `distances` exactly when the Distance flag is set, and likewise the
fields `durations` and `distances` of the payload builder of the binary emitter. -/
theorem MakeResponse_gating_built {PhantomNode Waypoint : Type} (c : Constants)
    (describeJson : PhantomNode → Object) (describeFb : PhantomNode → Waypoint)
    (parameters : TableParameters) (tables : List EdgeWeight × List EdgeDistance)
    (phantoms : List PhantomNode) (fallback_speed_cells : List TableCellRef)
    (hv : ValidInput parameters tables phantoms) :
    ∃ (out : Object) (tb : Table Waypoint),
      Json.MakeResponse c describeJson parameters tables phantoms fallback_speed_cells
        ([] : Object) = some out ∧
      Fb.MakeResponseTable c describeFb parameters tables phantoms fallback_speed_cells =
        some tb ∧
      (out.lookup "durations" ≠ none ↔
        (parameters.annotations = AnnotationsType.Duration ∨
          parameters.annotations = AnnotationsType.All)) ∧
      (out.lookup "distances" ≠ none ↔
        (parameters.annotations = AnnotationsType.Distance ∨
          parameters.annotations = AnnotationsType.All)) ∧
      (tb.durations ≠ none ↔
        (parameters.annotations = AnnotationsType.Duration ∨
          parameters.annotations = AnnotationsType.All)) ∧
      (tb.distances ≠ none ↔
        (parameters.annotations = AnnotationsType.Distance ∨
          parameters.annotations = AnnotationsType.All)) := by
  obtain ⟨out, tb, _, _, _, _, _, _, _, _, hout, hb, _, _, _, _, _, _,
    ⟨_, _, l3, l4, _, _, _⟩, htb⟩ :=
    MakeResponse_valid c describeJson describeFb parameters tables phantoms
      fallback_speed_cells ([] : Object)
      (if parameters.sources = [] then phantoms.length else parameters.sources.length)
      (if parameters.destinations = [] then phantoms.length
        else parameters.destinations.length) hv rfl rfl
  refine ⟨out, tb, hout, hb, ?_, ?_, ?_, ?_⟩
  · rw [l3, ← AnnotationsType.and_Duration_iff]
    by_cases hf : parameters.annotations.and AnnotationsType.Duration = true <;>
      simp [hf, Object.lookup]
  · rw [l4, ← AnnotationsType.and_Distance_iff]
    by_cases hf : parameters.annotations.and AnnotationsType.Distance = true <;>
      simp [hf, Object.lookup]
  · rw [htb, ← AnnotationsType.and_Duration_iff]
    by_cases hf : parameters.annotations.and AnnotationsType.Duration = true <;>
      simp [hf]
  · rw [htb, ← AnnotationsType.and_Distance_iff]
    by_cases hf : parameters.annotations.and AnnotationsType.Distance = true <;>
      simp [hf]

/-- Fallback gating of what the emitters build: on a valid input and an initially empty
response object, if the fallback speed is the reserved `INVALID_FALLBACK_SPEED` or is not
positive then `fallback_speed_cells` is absent from the tree object and from the payload
builder of the binary emitter; otherwise it is present in both and is the list whose `i`-th
element is the pair `[row_i, col_i]` of the `i`-th input cell, with the length and the order of
the input list, the tree key holding the same list of pairs as the binary field. -/
theorem MakeResponse_fallback_built {PhantomNode Waypoint : Type} (c : Constants)
    (describeJson : PhantomNode → Object) (describeFb : PhantomNode → Waypoint)
    (parameters : TableParameters) (tables : List EdgeWeight × List EdgeDistance)
    (phantoms : List PhantomNode) (fallback_speed_cells : List TableCellRef)
    (hv : ValidInput parameters tables phantoms) :
    ∃ (out : Object) (tb : Table Waypoint),
      Json.MakeResponse c describeJson parameters tables phantoms fallback_speed_cells
        ([] : Object) = some out ∧
      Fb.MakeResponseTable c describeFb parameters tables phantoms fallback_speed_cells =
        some tb ∧
      ((parameters.fallback_speed = c.INVALID_FALLBACK_SPEED ∨ parameters.fallback_speed ≤ 0) →
        out.lookup "fallback_speed_cells" = none ∧ tb.fallback_speed_cells = none) ∧
      (¬ (parameters.fallback_speed = c.INVALID_FALLBACK_SPEED ∨
          parameters.fallback_speed ≤ 0) →
        ∃ pairs : List VectorDouble,
          pairs = fallback_speed_cells.map
            (fun cell => [(cell.row : ℚ), (cell.column : ℚ)]) ∧
          pairs.length = fallback_speed_cells.length ∧
          tb.fallback_speed_cells = some pairs ∧
          out.lookup "fallback_speed_cells" =
            some (Value.Array (pairs.map fun pair => Value.Array (pair.map Value.Number)))) := by
  obtain ⟨out, tb, _, _, _, _, _, _, _, _, hout, hb, _, _, _, _, _, _,
    ⟨_, _, _, _, l5, _, _⟩, htb⟩ :=
    MakeResponse_valid c describeJson describeFb parameters tables phantoms
      fallback_speed_cells ([] : Object)
      (if parameters.sources = [] then phantoms.length else parameters.sources.length)
      (if parameters.destinations = [] then phantoms.length
        else parameters.destinations.length) hv rfl rfl
  refine ⟨out, tb, hout, hb, ?_, ?_⟩
  · intro h
    have hg : ¬ (parameters.fallback_speed ≠ c.INVALID_FALLBACK_SPEED ∧
        parameters.fallback_speed > 0) := by
      rintro ⟨g1, g2⟩
      rcases h with h | h
      · exact g1 h
      · exact absurd g2 (not_lt.mpr h)
    constructor
    · rw [l5, if_neg hg]
      rfl
    · rw [htb]
      simp only [if_neg hg]
  · intro h
    have hg : parameters.fallback_speed ≠ c.INVALID_FALLBACK_SPEED ∧
        parameters.fallback_speed > 0 :=
      ⟨fun g => h (Or.inl g), lt_of_not_ge fun g => h (Or.inr g)⟩
    refine ⟨_, rfl, List.length_map _ _, ?_, ?_⟩
    · rw [htb]
      simp only [if_pos hg]
      rfl
    · rw [l5, if_pos hg]
      simp [Json.MakeEstimatesTable]

/-! ## The binary envelope -/

/-- The binary emitter finishes the buffer with an envelope that holds the status string and
the discriminator and nothing else, whatever payload was built; it fails exactly when building
the payload fails. -/
theorem fb_MakeResponse_eq {PhantomNode Waypoint : Type} (c : Constants)
    (MakeWaypoint : PhantomNode → Waypoint) (parameters : TableParameters)
    (tables : List EdgeWeight × List EdgeDistance) (phantoms : List PhantomNode)
    (fallback_speed_cells : List TableCellRef) (fb_result : FlatBufferBuilder Waypoint) :
    Fb.MakeResponse c MakeWaypoint parameters tables phantoms fallback_speed_cells fb_result =
      (Fb.MakeResponseTable c MakeWaypoint parameters tables phantoms
        fallback_speed_cells).map fun _ =>
          { finished := some
              { code := some "Ok", response_type := ServiceResponse.table, table := none } } := by
  unfold Fb.MakeResponse
  cases Fb.MakeResponseTable c MakeWaypoint parameters tables phantoms fallback_speed_cells <;>
    rfl

/-- The binary duration table of the sample query. -/
theorem Sample.fb_durations :
    Fb.MakeDurationTable Sample.constants Sample.tables.1 2 3 =
      some [[10, 2147483647, 30], [5, 6, 2147483647]] := by
  simp [Fb.MakeDurationTable, transformM, rowRange, Fb.durationCell, List.range,
    List.range.loop, Sample.constants, Sample.tables]
  norm_num

/-- The binary distance table of the sample query. -/
theorem Sample.fb_distances :
    Fb.MakeDistanceTable Sample.constants Sample.tables.2 2 3 =
      some [[1, 2, 3], [4, 5, 6]] := by
  have r1 : roundedDistance (1 : ℚ) = 1 := roundedDistance_intCast 1 (by norm_num)
  have r2 : roundedDistance (2 : ℚ) = 2 := roundedDistance_intCast 2 (by norm_num)
  have r3 : roundedDistance (3 : ℚ) = 3 := roundedDistance_intCast 3 (by norm_num)
  have r4 : roundedDistance (4 : ℚ) = 4 := roundedDistance_intCast 4 (by norm_num)
  have r5 : roundedDistance (5 : ℚ) = 5 := roundedDistance_intCast 5 (by norm_num)
  have r6 : roundedDistance (6 : ℚ) = 6 := roundedDistance_intCast 6 (by norm_num)
  simp [Fb.MakeDistanceTable, transformM, rowRange, Fb.distanceCell, List.range,
    List.range.loop, Sample.constants, Sample.tables, r1, r2, r3, r4, r5, r6]
  norm_num

/-- The payload that the binary emitter builds for the sample query. -/
theorem Sample.fb_table :
    Fb.MakeResponseTable Sample.constants Sample.describeFb Sample.parameters Sample.tables
      Sample.phantoms Sample.fallback_speed_cells =
      some
        { sources := some [11, 31],
          destinations := some [11, 21, 31],
          durations := some [[10, 2147483647, 30], [5, 6, 2147483647]],
          distances := some [[1, 2, 3], [4, 5, 6]],
          fallback_speed_cells := some [[0, 1], [1, 2]] } := by
  have h := fb_MakeResponseTable_of_parts Sample.constants Sample.describeFb Sample.parameters
    Sample.tables Sample.phantoms Sample.fallback_speed_cells 2 3 [11, 31] [11, 21, 31]
    [[10, 2147483647, 30], [5, 6, 2147483647]] [[1, 2, 3], [4, 5, 6]]
    (by decide) (by decide) (by decide) (by decide)
    (fun _ => Sample.fb_durations) (fun _ => Sample.fb_distances)
  rw [h]
  have hf : Sample.parameters.fallback_speed ≠ Sample.constants.INVALID_FALLBACK_SPEED ∧
      Sample.parameters.fallback_speed > 0 := by
    simp only [Sample.parameters, Sample.constants]
    norm_num
  have h3 : Sample.parameters.annotations.and AnnotationsType.Duration = true := by decide
  have h4 : Sample.parameters.annotations.and AnnotationsType.Distance = true := by decide
  simp only [if_pos hf, if_pos h3, if_pos h4]
  simp [Fb.MakeEstimatesTable, Sample.fallback_speed_cells]

/-- The finished binary response of the sample query, starting from a fresh builder: an
envelope without payload. -/
theorem Sample.fb_response :
    Fb.MakeResponse Sample.constants Sample.describeFb Sample.parameters Sample.tables
      Sample.phantoms Sample.fallback_speed_cells { finished := none } =
      some
        { finished :=
            some { code := some "Ok", response_type := ServiceResponse.table, table := none } } :=
    by
  rw [fb_MakeResponse_eq, Sample.fb_table]
  rfl

/-- The sample query meets the preconditions of `MakeResponse`. -/
theorem Sample.valid : ValidInput Sample.parameters Sample.tables Sample.phantoms := by
  decide

/-- C7 (what the code does). The sample query selects the sources `[0, 2]` and no
destinations.  The tree object stores under `destinations` the descriptors of all three points
in natural order, and the binary emitter adds the descriptors of all three points to its
payload builder; but the finished binary response is an envelope without payload, so the
binary encoding emits no `destinations` list and no table at all. -/
theorem MakeResponse_symmetric_sample :
    (Sample.parameters.destinations = [] ∧ Sample.phantoms.length = 3) ∧
    (∃ out : Object,
      Json.MakeResponse Sample.constants Sample.describeJson Sample.parameters Sample.tables
        Sample.phantoms Sample.fallback_speed_cells ([] : Object) = some out ∧
      out.lookup "destinations" =
        some (Value.Array (Sample.phantoms.map fun p => Value.Object (Sample.describeJson p))) ∧
      (Sample.phantoms.map fun p => Value.Object (Sample.describeJson p)).length = 3) ∧
    (∃ tb : Table ℕ,
      Fb.MakeResponseTable Sample.constants Sample.describeFb Sample.parameters Sample.tables
        Sample.phantoms Sample.fallback_speed_cells = some tb ∧
      tb.destinations = some (Sample.phantoms.map Sample.describeFb)) ∧
    Fb.MakeResponse Sample.constants Sample.describeFb Sample.parameters Sample.tables
      Sample.phantoms Sample.fallback_speed_cells { finished := none } =
      some
        { finished :=
            some { code := some "Ok", response_type := ServiceResponse.table, table := none } } :=
    by
  refine ⟨⟨rfl, rfl⟩, ?_, ⟨_, Sample.fb_table, rfl⟩, Sample.fb_response⟩
  obtain ⟨out, tb, hout, _, _, hdst⟩ :=
    MakeResponse_symmetric_built Sample.constants Sample.describeJson Sample.describeFb
      Sample.parameters Sample.tables Sample.phantoms Sample.fallback_speed_cells
      ([] : Object) Sample.valid
  exact ⟨out, hout, (hdst rfl).1, rfl⟩

/-- C8 (what the code does). The sample query sets both annotation flags.  The tree object has
the keys `durations` and `distances`, and the binary emitter adds both tables to its payload
builder; but the finished binary response is an envelope without payload, so it has neither a
`durations` nor a `distances` field although both flags are set. -/
theorem MakeResponse_annotation_gating_sample :
    (Sample.parameters.annotations.and AnnotationsType.Duration = true ∧
      Sample.parameters.annotations.and AnnotationsType.Distance = true) ∧
    (∃ out : Object,
      Json.MakeResponse Sample.constants Sample.describeJson Sample.parameters Sample.tables
        Sample.phantoms Sample.fallback_speed_cells ([] : Object) = some out ∧
      out.lookup "durations" ≠ none ∧ out.lookup "distances" ≠ none) ∧
    (∃ tb : Table ℕ,
      Fb.MakeResponseTable Sample.constants Sample.describeFb Sample.parameters Sample.tables
        Sample.phantoms Sample.fallback_speed_cells = some tb ∧
      tb.durations = some [[10, 2147483647, 30], [5, 6, 2147483647]] ∧
      tb.distances = some [[1, 2, 3], [4, 5, 6]]) ∧
    Fb.MakeResponse Sample.constants Sample.describeFb Sample.parameters Sample.tables
      Sample.phantoms Sample.fallback_speed_cells { finished := none } =
      some
        { finished :=
            some { code := some "Ok", response_type := ServiceResponse.table, table := none } } :=
    by
  refine ⟨⟨by decide, by decide⟩, ?_, ⟨_, Sample.fb_table, rfl, rfl⟩, Sample.fb_response⟩
  obtain ⟨out, tb, hout, _, h1, h2, _, _⟩ :=
    MakeResponse_gating_built Sample.constants Sample.describeJson Sample.describeFb
      Sample.parameters Sample.tables Sample.phantoms Sample.fallback_speed_cells Sample.valid
  exact ⟨out, hout, h1.mpr (Or.inr rfl), h2.mpr (Or.inr rfl)⟩

/-- C9 (what the code does). The sample query has the fallback speed 25, neither the reserved
value nor non-positive.  The tree object has the key `fallback_speed_cells` with the input
cells as `[row, col]` pairs, and the binary emitter adds the same pairs to its payload builder;
but the finished binary response is an envelope without payload, so it has no
`fallback_speed_cells` field. -/
theorem MakeResponse_fallback_gating_sample :
    (Sample.parameters.fallback_speed ≠ Sample.constants.INVALID_FALLBACK_SPEED ∧
      Sample.parameters.fallback_speed > 0) ∧
    (∃ out : Object,
      Json.MakeResponse Sample.constants Sample.describeJson Sample.parameters Sample.tables
        Sample.phantoms Sample.fallback_speed_cells ([] : Object) = some out ∧
      out.lookup "fallback_speed_cells" =
        some (Value.Array [Value.Array [Value.Number 0, Value.Number 1],
          Value.Array [Value.Number 1, Value.Number 2]])) ∧
    (∃ tb : Table ℕ,
      Fb.MakeResponseTable Sample.constants Sample.describeFb Sample.parameters Sample.tables
        Sample.phantoms Sample.fallback_speed_cells = some tb ∧
      tb.fallback_speed_cells = some [[0, 1], [1, 2]]) ∧
    Fb.MakeResponse Sample.constants Sample.describeFb Sample.parameters Sample.tables
      Sample.phantoms Sample.fallback_speed_cells { finished := none } =
      some
        { finished :=
            some { code := some "Ok", response_type := ServiceResponse.table, table := none } } :=
    by
  have hf : Sample.parameters.fallback_speed ≠ Sample.constants.INVALID_FALLBACK_SPEED ∧
      Sample.parameters.fallback_speed > 0 := by
    simp only [Sample.parameters, Sample.constants]
    norm_num
  refine ⟨hf, ?_, ⟨_, Sample.fb_table, rfl⟩, Sample.fb_response⟩
  obtain ⟨out, tb, hout, _, _, h2⟩ :=
    MakeResponse_fallback_built Sample.constants Sample.describeJson Sample.describeFb
      Sample.parameters Sample.tables Sample.phantoms Sample.fallback_speed_cells Sample.valid
  obtain ⟨pairs, e1, _, _, e4⟩ :=
    h2 (fun h => h.elim (fun g => hf.1 g) (fun g => absurd hf.2 (not_lt.mpr g)))
  refine ⟨out, hout, ?_⟩
  rw [e4, e1]
  simp [Sample.fallback_speed_cells]

/-- C10 (what the code does). Whatever the input, the binary `MakeResponse` either fails or
finishes the buffer with an envelope that holds the status string `"Ok"`, the table
discriminator and no payload: the payload builder `table` is never finished nor added to the
envelope.  For the sample query the emitter builds a payload with all five fields, and the
finished response contains none of them. -/
theorem fb_MakeResponse_envelope_without_table :
    (∀ (PhantomNode Waypoint : Type) (c : Constants) (MakeWaypoint : PhantomNode → Waypoint)
      (parameters : TableParameters) (tables : List EdgeWeight × List EdgeDistance)
      (phantoms : List PhantomNode) (fallback_speed_cells : List TableCellRef)
      (fb_result : FlatBufferBuilder Waypoint),
      Fb.MakeResponse c MakeWaypoint parameters tables phantoms fallback_speed_cells
        fb_result = none ∨
      Fb.MakeResponse c MakeWaypoint parameters tables phantoms fallback_speed_cells
        fb_result =
        some
          { finished :=
              some { code := some "Ok", response_type := ServiceResponse.table, table := none } }) ∧
    Fb.MakeResponseTable Sample.constants Sample.describeFb Sample.parameters Sample.tables
      Sample.phantoms Sample.fallback_speed_cells =
      some
        { sources := some [11, 31],
          destinations := some [11, 21, 31],
          durations := some [[10, 2147483647, 30], [5, 6, 2147483647]],
          distances := some [[1, 2, 3], [4, 5, 6]],
          fallback_speed_cells := some [[0, 1], [1, 2]] } ∧
    Fb.MakeResponse Sample.constants Sample.describeFb Sample.parameters Sample.tables
      Sample.phantoms Sample.fallback_speed_cells { finished := none } =
      some
        { finished :=
            some { code := some "Ok", response_type := ServiceResponse.table, table := none } } :=
    by
  refine ⟨?_, Sample.fb_table, ?_⟩
  · intro PhantomNode Waypoint c MakeWaypoint parameters tables phantoms fallback_speed_cells
      fb_result
    rw [fb_MakeResponse_eq]
    cases Fb.MakeResponseTable c MakeWaypoint parameters tables phantoms fallback_speed_cells
    · exact Or.inl rfl
    · exact Or.inr rfl
  · exact Sample.fb_response

/-! ## Agreement of the two encodings -/

/-- A fallible transform over a mapped list whose every element succeeds. -/
theorem transformM_map_eq {α β γ : Type} (f : β → Option γ) (g : α → β) (h : α → γ)
    (l : List α) (hp : ∀ a ∈ l, f (g a) = some (h a)) :
    transformM f (l.map g) = some (l.map h) := by
  induction l with
  | nil => rfl
  | cons a as ih =>
    have h1 : f (g a) = some (h a) := hp a (List.mem_cons_self a as)
    have h2 : transformM f (as.map g) = some (as.map h) :=
      ih (fun x hx => hp x (List.mem_cons_of_mem a hx))
    simp [transformM, h1, h2]

/-- The tree table and the binary table built by the row loop from two cell functions that
differ only at the sentinel: same shape, cell by cell either null against the sentinel or the
same number, and the binary table is the tree table with every null replaced. -/
theorem tables_agree_generic {α β : Type} [DecidableEq α] (sentinel : α) (sentinelOut : β)
    (num : α → β) (toValue : β → Value) (replaceCell : Value → Option β)
    (replaceRow : Value → Option (List β)) (jcell : α → Value) (fcell : α → β)
    (hj : ∀ a, jcell a = if a = sentinel then Value.Null else toValue (num a))
    (hf : ∀ a, fcell a = if a = sentinel then sentinelOut else num a)
    (hnull : replaceCell Value.Null = some sentinelOut)
    (hnum : ∀ b, replaceCell (toValue b) = some b)
    (hrow : ∀ cells, replaceRow (Value.Array cells) = transformM replaceCell cells)
    (values : List α) (rows cols : ℕ) (hlen : values.length = rows * cols) :
    ∃ (jt : List Value) (ft : List (List β)),
      transformM (fun row => (rowRange values row cols).map fun cells =>
        Value.Array (cells.map jcell)) (List.range rows) = some jt ∧
      transformM (fun row => (rowRange values row cols).map fun cells =>
        cells.map fcell) (List.range rows) = some ft ∧
      jt.length = rows ∧ ft.length = rows ∧
      transformM replaceRow jt = some ft ∧
      ∀ r, r < rows → ∃ (jcells : List Value) (fcells : List β),
        jt[r]? = some (Value.Array jcells) ∧ ft[r]? = some fcells ∧
        jcells.length = cols ∧ fcells.length = cols ∧
        ∀ col, col < cols → ∃ raw : α, values[r * cols + col]? = some raw ∧
          ((raw = sentinel ∧ jcells[col]? = some Value.Null ∧
              fcells[col]? = some sentinelOut) ∨
            (raw ≠ sentinel ∧ ∃ x : β, jcells[col]? = some (toValue x) ∧
              fcells[col]? = some x)) := by
  have hle : rows * cols ≤ values.length := le_of_eq hlen.symm
  have hcell : ∀ a, replaceCell (jcell a) = some (fcell a) := by
    intro a
    rw [hj, hf]
    by_cases h : a = sentinel
    · rw [if_pos h, if_pos h, hnull]
    · rw [if_neg h, if_neg h, hnum]
  refine ⟨_, _, transformM_rows (fun cells => Value.Array (cells.map jcell)) values rows cols
    hle, transformM_rows (fun cells => cells.map fcell) values rows cols hle, by simp,
    by simp, ?_, ?_⟩
  · apply transformM_map_eq
    intro row _
    rw [hrow]
    exact transformM_map_eq replaceCell jcell fcell _ (fun a _ => hcell a)
  · intro r hr
    have hrow := row_length values r cols (row_end_le hr hle)
    refine ⟨((values.drop (r * cols)).take cols).map jcell,
      ((values.drop (r * cols)).take cols).map fcell, ?_, ?_, ?_, ?_, ?_⟩
    · simp [List.getElem?_map, List.getElem?_range hr]
    · simp [List.getElem?_map, List.getElem?_range hr]
    · rw [List.length_map, hrow]
    · rw [List.length_map, hrow]
    · intro col hcol
      have hlt : r * cols + col < values.length := flat_index_lt hr hcol hle
      refine ⟨values[r * cols + col], List.getElem?_eq_getElem hlt, ?_⟩
      rw [List.getElem?_map, List.getElem?_map, row_getElem? values r cols col hcol,
        List.getElem?_eq_getElem hlt]
      simp only [Option.map_some']
      rw [hj, hf]
      by_cases h : values[r * cols + col] = sentinel
      · left
        simp [h]
      · right
        exact ⟨h, num values[r * cols + col], by simp [h], by simp [h]⟩

/-- C11. Cross-encoding agreement: for a duration vector and a distance vector of
`rows * cols` values, the tree table and the binary table have the same shape, and at every
cell either the raw value is the sentinel, the tree cell is null and the binary cell is the raw
sentinel, or the raw value is not the sentinel and the tree cell is a number equal to the
binary cell; the binary table is the tree table with every null replaced by the sentinel. -/
theorem tree_and_binary_tables_agree (c : Constants) (durations : List EdgeWeight)
    (distances : List EdgeDistance) (rows cols : ℕ)
    (hdur : durations.length = rows * cols) (hdist : distances.length = rows * cols) :
    (∃ (jt : List Value) (ft : List VectorDouble),
      Json.MakeDurationTable c durations rows cols = some jt ∧
      Fb.MakeDurationTable c durations rows cols = some ft ∧
      jt.length = rows ∧ ft.length = rows ∧
      nullReplacedTable (c.MAXIMAL_EDGE_DURATION : ℚ) jt = some ft ∧
      ∀ r, r < rows → ∃ (jcells : List Value) (fcells : VectorDouble),
        jt[r]? = some (Value.Array jcells) ∧ ft[r]? = some fcells ∧
        jcells.length = cols ∧ fcells.length = cols ∧
        ∀ col, col < cols → ∃ raw, durations[r * cols + col]? = some raw ∧
          ((raw = c.MAXIMAL_EDGE_DURATION ∧ jcells[col]? = some Value.Null ∧
              fcells[col]? = some (c.MAXIMAL_EDGE_DURATION : ℚ)) ∨
            (raw ≠ c.MAXIMAL_EDGE_DURATION ∧ ∃ x : ℚ, jcells[col]? = some (Value.Number x) ∧
              fcells[col]? = some x))) ∧
    (∃ (jt : List Value) (ft : List VectorFloating),
      Json.MakeDistanceTable c distances rows cols = some jt ∧
      Fb.MakeDistanceTable c distances rows cols = some ft ∧
      jt.length = rows ∧ ft.length = rows ∧
      nullReplacedDistanceTable c.INVALID_EDGE_DISTANCE jt = some ft ∧
      ∀ r, r < rows → ∃ (jcells : List Value) (fcells : VectorFloating),
        jt[r]? = some (Value.Array jcells) ∧ ft[r]? = some fcells ∧
        jcells.length = cols ∧ fcells.length = cols ∧
        ∀ col, col < cols → ∃ raw, distances[r * cols + col]? = some raw ∧
          ((raw = c.INVALID_EDGE_DISTANCE ∧ jcells[col]? = some Value.Null ∧
              fcells[col]? = some (Floating.finite c.INVALID_EDGE_DISTANCE)) ∨
            (raw ≠ c.INVALID_EDGE_DISTANCE ∧
              ∃ x : Floating, jcells[col]? = some x.toValue ∧ fcells[col]? = some x))) :=
  ⟨tables_agree_generic c.MAXIMAL_EDGE_DURATION (c.MAXIMAL_EDGE_DURATION : ℚ)
      (fun duration => (duration : ℚ) / 10) Value.Number
      (nullReplacedCell (c.MAXIMAL_EDGE_DURATION : ℚ))
      (nullReplacedRow (c.MAXIMAL_EDGE_DURATION : ℚ)) (Json.durationCell c)
      (Fb.durationCell c) (fun _ => rfl) (fun _ => rfl) rfl (fun _ => rfl) (fun _ => rfl)
      durations rows cols hdur,
   tables_agree_generic c.INVALID_EDGE_DISTANCE (Floating.finite c.INVALID_EDGE_DISTANCE)
      roundedDistance Floating.toValue (nullReplacedDistanceCell c.INVALID_EDGE_DISTANCE)
      (nullReplacedDistanceRow c.INVALID_EDGE_DISTANCE) (Json.distanceCell c)
      (Fb.distanceCell c) (fun _ => rfl) (fun _ => rfl) rfl
      (fun b => by cases b <;> rfl) (fun _ => rfl) distances rows cols hdist⟩

/-- C11, at the 2 x 3 tables of the sample query. -/
theorem tree_and_binary_tables_agree_witness :
    (Sample.tables.1.length = 2 * 3) ∧ (Sample.tables.2.length = 2 * 3) ∧
    ((∃ (jt : List Value) (ft : List VectorDouble),
      Json.MakeDurationTable Sample.constants Sample.tables.1 2 3 = some jt ∧
      Fb.MakeDurationTable Sample.constants Sample.tables.1 2 3 = some ft ∧
      jt.length = 2 ∧ ft.length = 2 ∧
      nullReplacedTable (Sample.constants.MAXIMAL_EDGE_DURATION : ℚ) jt = some ft ∧
      ∀ r, r < 2 → ∃ (jcells : List Value) (fcells : VectorDouble),
        jt[r]? = some (Value.Array jcells) ∧ ft[r]? = some fcells ∧
        jcells.length = 3 ∧ fcells.length = 3 ∧
        ∀ col, col < 3 → ∃ raw, Sample.tables.1[r * 3 + col]? = some raw ∧
          ((raw = Sample.constants.MAXIMAL_EDGE_DURATION ∧ jcells[col]? = some Value.Null ∧
              fcells[col]? = some (Sample.constants.MAXIMAL_EDGE_DURATION : ℚ)) ∨
            (raw ≠ Sample.constants.MAXIMAL_EDGE_DURATION ∧
              ∃ x : ℚ, jcells[col]? = some (Value.Number x) ∧ fcells[col]? = some x))) ∧
    (∃ (jt : List Value) (ft : List VectorFloating),
      Json.MakeDistanceTable Sample.constants Sample.tables.2 2 3 = some jt ∧
      Fb.MakeDistanceTable Sample.constants Sample.tables.2 2 3 = some ft ∧
      jt.length = 2 ∧ ft.length = 2 ∧
      nullReplacedDistanceTable Sample.constants.INVALID_EDGE_DISTANCE jt = some ft ∧
      ∀ r, r < 2 → ∃ (jcells : List Value) (fcells : VectorFloating),
        jt[r]? = some (Value.Array jcells) ∧ ft[r]? = some fcells ∧
        jcells.length = 3 ∧ fcells.length = 3 ∧
        ∀ col, col < 3 → ∃ raw, Sample.tables.2[r * 3 + col]? = some raw ∧
          ((raw = Sample.constants.INVALID_EDGE_DISTANCE ∧ jcells[col]? = some Value.Null ∧
              fcells[col]? = some (Floating.finite Sample.constants.INVALID_EDGE_DISTANCE)) ∨
            (raw ≠ Sample.constants.INVALID_EDGE_DISTANCE ∧
              ∃ x : Floating, jcells[col]? = some x.toValue ∧ fcells[col]? = some x)))) :=
  ⟨by decide, by decide,
   tree_and_binary_tables_agree Sample.constants Sample.tables.1 Sample.tables.2 2 3
     (by decide) (by decide)⟩


/-! ## Bounds of the slicing -/

/-- A row of a vector of `rows * cols` values: its index range lies inside the vector, the
slicing takes its in-range branch, and the cells read are the flat entries of the range. -/
theorem rowRange_in_bounds {α : Type} (values : List α) (rows cols : ℕ)
    (hlen : values.length = rows * cols) (r : ℕ) (hr : r < rows) :
    r * cols ≤ (r + 1) * cols ∧ (r + 1) * cols ≤ values.length ∧
    rowRange values r cols = some ((values.drop (r * cols)).take cols) ∧
    ((values.drop (r * cols)).take cols).length = cols ∧
    ∀ i, i < cols → r * cols + i < values.length ∧
      ((values.drop (r * cols)).take cols)[i]? = values[r * cols + i]? := by
  have hle : rows * cols ≤ values.length := le_of_eq hlen.symm
  have hend : (r + 1) * cols ≤ values.length := row_end_le hr hle
  refine ⟨Nat.mul_le_mul_right cols (Nat.le_succ r), hend, ?_, row_length values r cols hend,
    fun i hi => ⟨flat_index_lt hr hi hle, row_getElem? values r cols i hi⟩⟩
  simp [rowRange, hend]

/-- C13. No bounds failure in slicing: for a duration vector and a distance vector of
`rows * cols` values, every row `r < rows` read by the table builders covers the index range
`[r * cols, (r + 1) * cols)`, which lies inside the vector, so the slicing never takes its
out-of-range branch and none of the four table builders fails. -/
theorem slicing_in_bounds (c : Constants) (durations : List EdgeWeight)
    (distances : List EdgeDistance) (rows cols : ℕ)
    (hdur : durations.length = rows * cols) (hdist : distances.length = rows * cols) :
    (∀ r, r < rows →
      (r * cols ≤ (r + 1) * cols ∧ (r + 1) * cols ≤ durations.length ∧
        rowRange durations r cols ≠ none ∧
        rowRange durations r cols = some ((durations.drop (r * cols)).take cols) ∧
        ((durations.drop (r * cols)).take cols).length = cols ∧
        ∀ i, i < cols → r * cols + i < durations.length ∧
          ((durations.drop (r * cols)).take cols)[i]? = durations[r * cols + i]?) ∧
      (r * cols ≤ (r + 1) * cols ∧ (r + 1) * cols ≤ distances.length ∧
        rowRange distances r cols ≠ none ∧
        rowRange distances r cols = some ((distances.drop (r * cols)).take cols) ∧
        ((distances.drop (r * cols)).take cols).length = cols ∧
        ∀ i, i < cols → r * cols + i < distances.length ∧
          ((distances.drop (r * cols)).take cols)[i]? = distances[r * cols + i]?)) ∧
    Json.MakeDurationTable c durations rows cols ≠ none ∧
    Fb.MakeDurationTable c durations rows cols ≠ none ∧
    Json.MakeDistanceTable c distances rows cols ≠ none ∧
    Fb.MakeDistanceTable c distances rows cols ≠ none := by
  refine ⟨fun r hr => ⟨?_, ?_⟩, ?_, ?_, ?_, ?_⟩
  · obtain ⟨a1, a2, a3, a4, a5⟩ := rowRange_in_bounds durations rows cols hdur r hr
    exact ⟨a1, a2, by rw [a3]; exact Option.some_ne_none _, a3, a4, a5⟩
  · obtain ⟨a1, a2, a3, a4, a5⟩ := rowRange_in_bounds distances rows cols hdist r hr
    exact ⟨a1, a2, by rw [a3]; exact Option.some_ne_none _, a3, a4, a5⟩
  · obtain ⟨t, ht, _⟩ := table_rows_spec (Json.durationCell c) Value.Array durations rows cols
      (le_of_eq hdur.symm)
    rw [Json.MakeDurationTable, ht]
    exact Option.some_ne_none _
  · obtain ⟨t, ht, _⟩ := table_rows_spec (Fb.durationCell c) (fun cells => cells) durations
      rows cols (le_of_eq hdur.symm)
    rw [Fb.MakeDurationTable, ht]
    exact Option.some_ne_none _
  · obtain ⟨t, ht, _⟩ := table_rows_spec (Json.distanceCell c) Value.Array distances rows cols
      (le_of_eq hdist.symm)
    rw [Json.MakeDistanceTable, ht]
    exact Option.some_ne_none _
  · obtain ⟨t, ht, _⟩ := table_rows_spec (Fb.distanceCell c) (fun cells => cells) distances
      rows cols (le_of_eq hdist.symm)
    rw [Fb.MakeDistanceTable, ht]
    exact Option.some_ne_none _

/-- C13, at the 2 x 3 tables of the sample query. -/
theorem slicing_in_bounds_witness :
    (Sample.tables.1.length = 2 * 3) ∧ (Sample.tables.2.length = 2 * 3) ∧
    ((∀ r, r < 2 →
      (r * 3 ≤ (r + 1) * 3 ∧ (r + 1) * 3 ≤ Sample.tables.1.length ∧
        rowRange Sample.tables.1 r 3 ≠ none ∧
        rowRange Sample.tables.1 r 3 = some ((Sample.tables.1.drop (r * 3)).take 3) ∧
        ((Sample.tables.1.drop (r * 3)).take 3).length = 3 ∧
        ∀ i, i < 3 → r * 3 + i < Sample.tables.1.length ∧
          ((Sample.tables.1.drop (r * 3)).take 3)[i]? = Sample.tables.1[r * 3 + i]?) ∧
      (r * 3 ≤ (r + 1) * 3 ∧ (r + 1) * 3 ≤ Sample.tables.2.length ∧
        rowRange Sample.tables.2 r 3 ≠ none ∧
        rowRange Sample.tables.2 r 3 = some ((Sample.tables.2.drop (r * 3)).take 3) ∧
        ((Sample.tables.2.drop (r * 3)).take 3).length = 3 ∧
        ∀ i, i < 3 → r * 3 + i < Sample.tables.2.length ∧
          ((Sample.tables.2.drop (r * 3)).take 3)[i]? = Sample.tables.2[r * 3 + i]?)) ∧
    Json.MakeDurationTable Sample.constants Sample.tables.1 2 3 ≠ none ∧
    Fb.MakeDurationTable Sample.constants Sample.tables.1 2 3 ≠ none ∧
    Json.MakeDistanceTable Sample.constants Sample.tables.2 2 3 ≠ none ∧
    Fb.MakeDistanceTable Sample.constants Sample.tables.2 2 3 ≠ none) :=
  ⟨by decide, by decide,
   slicing_in_bounds Sample.constants Sample.tables.1 Sample.tables.2 2 3
     (by decide) (by decide)⟩

/-! ## Status, frame and dispatch -/

/-- The end-to-end example meets the preconditions of `MakeResponse`. -/
theorem EndToEnd.example_valid : ValidInput EndToEnd.parameters EndToEnd.tables Sample.phantoms := by
  decide

/-- C14. Success status: on a valid input, whatever the selection, the annotations and the
fallback gate, the tree response has the key `code` with the string value `"Ok"`, and the
envelope that the binary emitter finishes the buffer with has the status string `"Ok"` and the
table discriminator. -/
theorem MakeResponse_success_status {PhantomNode Waypoint : Type} (c : Constants)
    (describeJson : PhantomNode → Object) (describeFb : PhantomNode → Waypoint)
    (parameters : TableParameters) (tables : List EdgeWeight × List EdgeDistance)
    (phantoms : List PhantomNode) (fallback_speed_cells : List TableCellRef)
    (response : Object) (fb_result : FlatBufferBuilder Waypoint)
    (hv : ValidInput parameters tables phantoms) :
    (∃ out : Object,
      Json.MakeResponse c describeJson parameters tables phantoms fallback_speed_cells
        response = some out ∧
      out.lookup "code" = some (Value.String "Ok")) ∧
    (∃ (out : FlatBufferBuilder Waypoint) (envelope : FBResult Waypoint),
      Fb.MakeResponse c describeFb parameters tables phantoms fallback_speed_cells
        fb_result = some out ∧
      out.finished = some envelope ∧
      envelope.code = some "Ok" ∧ envelope.response_type = ServiceResponse.table) := by
  obtain ⟨out, tb, _, _, _, _, _, _, _, _, hout, hb, _, _, _, _, _, _,
    ⟨_, _, _, _, _, l6, _⟩, _⟩ :=
    MakeResponse_valid c describeJson describeFb parameters tables phantoms
      fallback_speed_cells response
      (if parameters.sources = [] then phantoms.length else parameters.sources.length)
      (if parameters.destinations = [] then phantoms.length
        else parameters.destinations.length) hv rfl rfl
  refine ⟨⟨out, hout, l6⟩,
    ⟨{ finished :=
        some { code := some "Ok", response_type := ServiceResponse.table, table := none } },
      { code := some "Ok", response_type := ServiceResponse.table, table := none },
      ?_, rfl, rfl, rfl⟩⟩
  rw [fb_MakeResponse_eq, hb]
  rfl

/-- C14, at the sample query, an empty object and a fresh builder. -/
theorem MakeResponse_success_status_witness :
    (ValidInput Sample.parameters Sample.tables Sample.phantoms) ∧
    ((∃ out : Object,
      Json.MakeResponse Sample.constants Sample.describeJson Sample.parameters Sample.tables
        Sample.phantoms Sample.fallback_speed_cells ([] : Object) = some out ∧
      out.lookup "code" = some (Value.String "Ok")) ∧
    (∃ (out : FlatBufferBuilder ℕ) (envelope : FBResult ℕ),
      Fb.MakeResponse Sample.constants Sample.describeFb Sample.parameters Sample.tables
        Sample.phantoms Sample.fallback_speed_cells { finished := none } = some out ∧
      out.finished = some envelope ∧
      envelope.code = some "Ok" ∧ envelope.response_type = ServiceResponse.table)) :=
  ⟨by decide,
   MakeResponse_success_status Sample.constants Sample.describeJson Sample.describeFb
     Sample.parameters Sample.tables Sample.phantoms Sample.fallback_speed_cells
     ([] : Object) { finished := none } (by decide)⟩

/-- C18. Frame of the tree emitter: on a valid input and any initial response object, the tree
`MakeResponse` leaves every key other than `sources`, `destinations`, `durations`,
`distances`, `fallback_speed_cells` and `code` at its prior value, and a gated key whose gate is
off is left exactly as it was in the initial object rather than removed; so a gated key is
absent from the output only if it was absent from the initial object. -/
theorem json_MakeResponse_frame {PhantomNode : Type} (c : Constants)
    (describeJson : PhantomNode → Object)
    (parameters : TableParameters) (tables : List EdgeWeight × List EdgeDistance)
    (phantoms : List PhantomNode) (fallback_speed_cells : List TableCellRef)
    (response : Object)
    (hv : ValidInput parameters tables phantoms) :
    ∃ out : Object,
      Json.MakeResponse c describeJson parameters tables phantoms fallback_speed_cells
        response = some out ∧
      (∀ key : String, key ≠ "sources" → key ≠ "destinations" → key ≠ "durations" →
        key ≠ "distances" → key ≠ "fallback_speed_cells" → key ≠ "code" →
        out.lookup key = response.lookup key) ∧
      (parameters.annotations.and AnnotationsType.Duration = false →
        out.lookup "durations" = response.lookup "durations") ∧
      (parameters.annotations.and AnnotationsType.Distance = false →
        out.lookup "distances" = response.lookup "distances") ∧
      (¬ (parameters.fallback_speed ≠ c.INVALID_FALLBACK_SPEED ∧
          parameters.fallback_speed > 0) →
        out.lookup "fallback_speed_cells" = response.lookup "fallback_speed_cells") ∧
      (out.lookup "durations" = none → response.lookup "durations" = none) ∧
      (out.lookup "distances" = none → response.lookup "distances" = none) ∧
      (out.lookup "fallback_speed_cells" = none →
        response.lookup "fallback_speed_cells" = none) := by
  obtain ⟨out, _, _, _, _, _, _, _, _, _, hout, _, _, _, _, _, _, _,
    ⟨_, _, l3, l4, l5, _, l7⟩, _⟩ :=
    MakeResponse_valid c describeJson (fun p : PhantomNode => p) parameters tables phantoms
      fallback_speed_cells response
      (if parameters.sources = [] then phantoms.length else parameters.sources.length)
      (if parameters.destinations = [] then phantoms.length
        else parameters.destinations.length) hv rfl rfl
  refine ⟨out, hout, l7, ?_, ?_, ?_, ?_, ?_, ?_⟩
  · intro h
    rw [l3]
    simp [h]
  · intro h
    rw [l4]
    simp [h]
  · intro h
    rw [l5, if_neg h]
  · intro h
    rw [l3] at h
    by_cases hf : parameters.annotations.and AnnotationsType.Duration = true
    · simp [hf] at h
    · simpa [hf] using h
  · intro h
    rw [l4] at h
    by_cases hf : parameters.annotations.and AnnotationsType.Distance = true
    · simp [hf] at h
    · simpa [hf] using h
  · intro h
    rw [l5] at h
    by_cases hf : parameters.fallback_speed ≠ c.INVALID_FALLBACK_SPEED ∧
        parameters.fallback_speed > 0
    · rw [if_pos hf] at h
      exact absurd h (Option.some_ne_none _)
    · rw [if_neg hf] at h
      exact h

/-- C18, at the end-to-end example (Duration only, fallback disabled) and an initial object
that already holds a `distances` entry and a foreign key. -/
theorem json_MakeResponse_frame_witness :
    (ValidInput EndToEnd.parameters EndToEnd.tables Sample.phantoms) ∧
    (∃ out : Object,
      Json.MakeResponse Sample.constants Sample.describeJson EndToEnd.parameters
        EndToEnd.tables Sample.phantoms ([] : List TableCellRef)
        ([("distances", Value.String "stale"), ("hint", Value.True)] : Object) = some out ∧
      (∀ key : String, key ≠ "sources" → key ≠ "destinations" → key ≠ "durations" →
        key ≠ "distances" → key ≠ "fallback_speed_cells" → key ≠ "code" →
        out.lookup key =
          Object.lookup [("distances", Value.String "stale"), ("hint", Value.True)] key) ∧
      (EndToEnd.parameters.annotations.and AnnotationsType.Duration = false →
        out.lookup "durations" =
          Object.lookup [("distances", Value.String "stale"), ("hint", Value.True)]
            "durations") ∧
      (EndToEnd.parameters.annotations.and AnnotationsType.Distance = false →
        out.lookup "distances" =
          Object.lookup [("distances", Value.String "stale"), ("hint", Value.True)]
            "distances") ∧
      (¬ (EndToEnd.parameters.fallback_speed ≠ Sample.constants.INVALID_FALLBACK_SPEED ∧
          EndToEnd.parameters.fallback_speed > 0) →
        out.lookup "fallback_speed_cells" =
          Object.lookup [("distances", Value.String "stale"), ("hint", Value.True)]
            "fallback_speed_cells") ∧
      (out.lookup "durations" = none →
        Object.lookup [("distances", Value.String "stale"), ("hint", Value.True)]
          "durations" = none) ∧
      (out.lookup "distances" = none →
        Object.lookup [("distances", Value.String "stale"), ("hint", Value.True)]
          "distances" = none) ∧
      (out.lookup "fallback_speed_cells" = none →
        Object.lookup [("distances", Value.String "stale"), ("hint", Value.True)]
          "fallback_speed_cells" = none)) :=
  ⟨by decide,
   json_MakeResponse_frame Sample.constants Sample.describeJson EndToEnd.parameters
     EndToEnd.tables Sample.phantoms ([] : List TableCellRef)
     ([("distances", Value.String "stale"), ("hint", Value.True)] : Object) (by decide)⟩

/-! ## Numeric behaviour of the cells -/

/-- C16. Binary duration sentinel is unambiguous: with `MAXIMAL_EDGE_DURATION` the largest
signed 32-bit value, for every raw duration `d` of that type the binary cell equals
`MAXIMAL_EDGE_DURATION` if and only if `d` is `MAXIMAL_EDGE_DURATION`; no other raw duration is
encoded, by `d / 10`, to the value that marks an unreachable cell. -/
theorem fb_duration_sentinel_unambiguous (c : Constants) (d : EdgeWeight)
    (hmax : c.MAXIMAL_EDGE_DURATION = 2 ^ 31 - 1)
    (hlo : -(2 ^ 31) ≤ d) (hhi : d ≤ 2 ^ 31 - 1) :
    (Fb.durationCell c d = (c.MAXIMAL_EDGE_DURATION : ℚ) ↔ d = c.MAXIMAL_EDGE_DURATION) ∧
    (d ≠ c.MAXIMAL_EDGE_DURATION →
      Fb.durationCell c d = (d : ℚ) / 10 ∧
      Fb.durationCell c d < (c.MAXIMAL_EDGE_DURATION : ℚ)) := by
  have hq : ((d : ℚ)) ≤ 2 ^ 31 - 1 := by exact_mod_cast hhi
  have hlq : (-(2 ^ 31) : ℚ) ≤ (d : ℚ) := by exact_mod_cast hlo
  have hm : (c.MAXIMAL_EDGE_DURATION : ℚ) = 2 ^ 31 - 1 := by
    rw [hmax]
    norm_num
  have hlt : d ≠ c.MAXIMAL_EDGE_DURATION → (d : ℚ) / 10 < (c.MAXIMAL_EDGE_DURATION : ℚ) := by
    intro _
    rw [hm]
    norm_num at hq hlq ⊢
    linarith
  constructor
  · constructor
    · intro h
      by_contra hne
      have h1 := hlt hne
      rw [Fb.durationCell, if_neg hne] at h
      exact absurd h (ne_of_lt h1)
    · intro h
      rw [Fb.durationCell, if_pos h]
  · intro hne
    have h1 : Fb.durationCell c d = (d : ℚ) / 10 := by
      rw [Fb.durationCell, if_neg hne]
    exact ⟨h1, h1 ▸ hlt hne⟩

/-- C16, at the raw duration 2147483640, ten below the sentinel. -/
theorem fb_duration_sentinel_unambiguous_witness :
    (Sample.constants.MAXIMAL_EDGE_DURATION = 2 ^ 31 - 1) ∧
    (-(2 ^ 31) ≤ (2147483640 : EdgeWeight)) ∧ ((2147483640 : EdgeWeight) ≤ 2 ^ 31 - 1) ∧
    ((Fb.durationCell Sample.constants 2147483640 =
        (Sample.constants.MAXIMAL_EDGE_DURATION : ℚ) ↔
      (2147483640 : EdgeWeight) = Sample.constants.MAXIMAL_EDGE_DURATION) ∧
    ((2147483640 : EdgeWeight) ≠ Sample.constants.MAXIMAL_EDGE_DURATION →
      Fb.durationCell Sample.constants 2147483640 = ((2147483640 : EdgeWeight) : ℚ) / 10 ∧
      Fb.durationCell Sample.constants 2147483640 <
        (Sample.constants.MAXIMAL_EDGE_DURATION : ℚ))) :=
  ⟨by decide, by decide, by decide,
   fb_duration_sentinel_unambiguous Sample.constants 2147483640
     (by decide) (by decide) (by decide)⟩

/-- With a sentinel of `0.4` the raw distance `0.35f` is encoded as the sentinel value, which
the tree encoder maps to null when it is encoded again. -/
theorem json_distanceCell_sentinel_value :
    Json.distanceCell ⟨2147483647, 2 / 5, 0⟩ (11744051 / 33554432) = Value.Number (2 / 5) ∧
    Json.distanceCell ⟨2147483647, 2 / 5, 0⟩ (2 / 5) = Value.Null := by
  have h4 : cround (7 / 2 : ℚ) = 4 :=
    cround_nonneg_eq _ 4 (by norm_num) (by norm_num) (by norm_num)
  have hc := json_distanceCell_of_product ⟨2147483647, 2 / 5, 0⟩ (11744051 / 33554432) _
    (by norm_num) roundToFloat_example_up
  rw [h4] at hc
  refine ⟨?_, ?_⟩
  · rw [hc]
    norm_num
  · unfold Json.distanceCell
    rw [if_pos rfl]

/-- The parts of the tree emitter succeed on a valid input. -/
theorem json_parts_of_valid {PhantomNode : Type} (c : Constants)
    (describeJson : PhantomNode → Object) (parameters : TableParameters)
    (tables : List EdgeWeight × List EdgeDistance) (phantoms : List PhantomNode)
    (rows cols : ℕ) (hv : ValidInput parameters tables phantoms)
    (hrows : rows = if parameters.sources = [] then phantoms.length
      else parameters.sources.length)
    (hcols : cols = if parameters.destinations = [] then phantoms.length
      else parameters.destinations.length) :
    ∃ s d dur dist : List Value,
      (if parameters.sources = [] then Json.MakeWaypoints describeJson parameters phantoms
        else Json.MakeWaypointsAt describeJson phantoms parameters.sources) = some s ∧
      (if parameters.destinations = [] then
          Json.MakeWaypoints describeJson parameters phantoms
        else Json.MakeWaypointsAt describeJson phantoms parameters.destinations) = some d ∧
      (parameters.annotations.and AnnotationsType.Duration = true →
        Json.MakeDurationTable c tables.1 rows cols = some dur) ∧
      (parameters.annotations.and AnnotationsType.Distance = true →
        Json.MakeDistanceTable c tables.2 rows cols = some dist) := by
  obtain ⟨v1, v2, v3, v4, v5⟩ := hv
  rw [← hrows, ← hcols] at v4 v5
  obtain ⟨s, hs, _, _⟩ := json_waypoints_sel describeJson parameters phantoms
    parameters.sources v1 (fun h => v3 (Or.inl h))
  obtain ⟨d, hd, _, _⟩ := json_waypoints_sel describeJson parameters phantoms
    parameters.destinations v2 (fun h => v3 (Or.inr h))
  obtain ⟨dur, hdur⟩ := gated_table _ (Json.MakeDurationTable c tables.1 rows cols)
    (fun hf => (table_rows_spec (Json.durationCell c) Value.Array tables.1 rows cols
      (le_of_eq (v4 hf).symm)).imp fun _ h => h.1)
  obtain ⟨dist, hdist⟩ := gated_table _ (Json.MakeDistanceTable c tables.2 rows cols)
    (fun hf => (table_rows_spec (Json.distanceCell c) Value.Array tables.2 rows cols
      (le_of_eq (v5 hf).symm)).imp fun _ h => h.1)
  exact ⟨s, d, dur, dist, hs, hd, hdur, hdist⟩

/-- Assigning to a key the value it already has leaves the object as it is. -/
theorem Object.set_of_lookup (o : Object) (key : String) (v : Value)
    (h : o.lookup key = some v) : o.set key v = o := by
  induction o with
  | nil => simp [Object.lookup] at h
  | cons kv rest ih =>
    obtain ⟨k, w⟩ := kv
    by_cases hk : k = key
    · simp [Object.lookup, hk] at h
      simp [Object.set, hk, h]
    · simp [Object.lookup, hk] at h
      simp [Object.set, hk, ih h]

/-- Running the tree emitter on its own output, with the same inputs, changes nothing. -/
theorem json_MakeResponse_rerun {PhantomNode : Type} (c : Constants)
    (describeJson : PhantomNode → Object) (parameters : TableParameters)
    (tables : List EdgeWeight × List EdgeDistance) (phantoms : List PhantomNode)
    (fallback_speed_cells : List TableCellRef) (response : Object)
    (hv : ValidInput parameters tables phantoms) :
    ∃ out : Object,
      Json.MakeResponse c describeJson parameters tables phantoms fallback_speed_cells
        response = some out ∧
      Json.MakeResponse c describeJson parameters tables phantoms fallback_speed_cells
        out = some out := by
  obtain ⟨s, d, dur, dist, hs, hd, hdur, hdist⟩ := json_parts_of_valid c describeJson
    parameters tables phantoms _ _ hv rfl rfl
  obtain ⟨out, hout, l1, l2, l3, l4, l5, l6, _⟩ := json_MakeResponse_lookups c describeJson
    parameters tables phantoms fallback_speed_cells response _ _ s d dur dist rfl rfl hs hd
    hdur hdist
  refine ⟨out, hout, ?_⟩
  rw [json_MakeResponse_of_parts c describeJson parameters tables phantoms
    fallback_speed_cells out _ _ s d dur dist rfl rfl hs hd hdur hdist]
  have e1 : out.set "sources" (Value.Array s) = out := Object.set_of_lookup _ _ _ l1
  have e2 : out.set "destinations" (Value.Array d) = out := Object.set_of_lookup _ _ _ l2
  have e6 : out.set "code" (Value.String "Ok") = out := Object.set_of_lookup _ _ _ l6
  have e3 : (if parameters.annotations.and AnnotationsType.Duration = true then
      out.set "durations" (Value.Array dur) else out) = out := by
    split_ifs with h
    · exact Object.set_of_lookup _ _ _ (by rw [l3, if_pos h])
    · rfl
  have e4 : (if parameters.annotations.and AnnotationsType.Distance = true then
      out.set "distances" (Value.Array dist) else out) = out := by
    split_ifs with h
    · exact Object.set_of_lookup _ _ _ (by rw [l4, if_pos h])
    · rfl
  have e5 : (if parameters.fallback_speed ≠ c.INVALID_FALLBACK_SPEED ∧
      parameters.fallback_speed > 0 then
      out.set "fallback_speed_cells"
        (Value.Array (Json.MakeEstimatesTable fallback_speed_cells)) else out) = out := by
    split_ifs with h
    · exact Object.set_of_lookup _ _ _ (by rw [l5, if_pos h])
    · rfl
  simp only [e1, e2, e3, e4, e5, e6]

/-- C19. Encoding dispatch: the variant-taking `MakeResponse` produces exactly the result of
the binary emitter when the response holds a binary builder and exactly the result of the tree
emitter when it holds a tree object, with the tables, the point list and the fallback cells
passed through unchanged; on a valid input both succeed. -/
theorem MakeResponse_dispatch {PhantomNode Waypoint : Type} (c : Constants)
    (describeJson : PhantomNode → Object) (describeFb : PhantomNode → Waypoint)
    (parameters : TableParameters) (tables : List EdgeWeight × List EdgeDistance)
    (phantoms : List PhantomNode) (fallback_speed_cells : List TableCellRef)
    (json_result : Object) (fb_result : FlatBufferBuilder Waypoint) :
    TableAPI.MakeResponse c describeJson describeFb parameters tables phantoms
        fallback_speed_cells (ResultT.flatbuffers fb_result) =
      (Fb.MakeResponse c describeFb parameters tables phantoms fallback_speed_cells
        fb_result).map ResultT.flatbuffers ∧
    TableAPI.MakeResponse c describeJson describeFb parameters tables phantoms
        fallback_speed_cells (ResultT.json json_result) =
      (Json.MakeResponse c describeJson parameters tables phantoms fallback_speed_cells
        json_result).map ResultT.json ∧
    (ValidInput parameters tables phantoms →
      ∃ (fb_out : FlatBufferBuilder Waypoint) (json_out : Object),
        Fb.MakeResponse c describeFb parameters tables phantoms fallback_speed_cells
          fb_result = some fb_out ∧
        TableAPI.MakeResponse c describeJson describeFb parameters tables phantoms
          fallback_speed_cells (ResultT.flatbuffers fb_result) =
            some (ResultT.flatbuffers fb_out) ∧
        Json.MakeResponse c describeJson parameters tables phantoms fallback_speed_cells
          json_result = some json_out ∧
        TableAPI.MakeResponse c describeJson describeFb parameters tables phantoms
          fallback_speed_cells (ResultT.json json_result) = some (ResultT.json json_out)) := by
  refine ⟨rfl, rfl, fun hv => ?_⟩
  obtain ⟨out, tb, _, _, _, _, _, _, _, _, hout, hb, _⟩ :=
    MakeResponse_valid c describeJson describeFb parameters tables phantoms
      fallback_speed_cells json_result
      (if parameters.sources = [] then phantoms.length else parameters.sources.length)
      (if parameters.destinations = [] then phantoms.length
        else parameters.destinations.length) hv rfl rfl
  have hfb : Fb.MakeResponse c describeFb parameters tables phantoms fallback_speed_cells
      fb_result =
      some
        { finished :=
            some { code := some "Ok", response_type := ServiceResponse.table, table := none } } :=
    by
    rw [fb_MakeResponse_eq, hb]
    rfl
  refine ⟨_, out, hfb, ?_, hout, ?_⟩
  · rw [TableAPI.MakeResponse, hfb]
    rfl
  · rw [TableAPI.MakeResponse, hout]
    rfl

/-- C15. Idempotence of encoding: running the tree emitter twice on equal inputs and equal
initial responses yields equal responses, and likewise the binary emitter; the output depends
on nothing but the inputs.  Moreover, on a valid input, running either emitter again on its
own output yields that output again. -/
theorem MakeResponse_idempotent {PhantomNode Waypoint : Type} (c c2 : Constants)
    (describeJson describeJson2 : PhantomNode → Object)
    (describeFb describeFb2 : PhantomNode → Waypoint)
    (parameters parameters2 : TableParameters)
    (tables tables2 : List EdgeWeight × List EdgeDistance)
    (phantoms phantoms2 : List PhantomNode)
    (fallback_speed_cells fallback_speed_cells2 : List TableCellRef)
    (response response2 : Object) (fb_result fb_result2 : FlatBufferBuilder Waypoint)
    (hc : c = c2) (hdj : describeJson = describeJson2) (hdf : describeFb = describeFb2)
    (hp : parameters = parameters2) (ht : tables = tables2) (hph : phantoms = phantoms2)
    (hcells : fallback_speed_cells = fallback_speed_cells2)
    (hr : response = response2) (hfb : fb_result = fb_result2) :
    Json.MakeResponse c describeJson parameters tables phantoms fallback_speed_cells
        response =
      Json.MakeResponse c2 describeJson2 parameters2 tables2 phantoms2 fallback_speed_cells2
        response2 ∧
    Fb.MakeResponse c describeFb parameters tables phantoms fallback_speed_cells fb_result =
      Fb.MakeResponse c2 describeFb2 parameters2 tables2 phantoms2 fallback_speed_cells2
        fb_result2 ∧
    (ValidInput parameters tables phantoms →
      ∃ (json_out : Object) (fb_out : FlatBufferBuilder Waypoint),
        Json.MakeResponse c describeJson parameters tables phantoms fallback_speed_cells
          response = some json_out ∧
        Json.MakeResponse c describeJson parameters tables phantoms fallback_speed_cells
          json_out = some json_out ∧
        Fb.MakeResponse c describeFb parameters tables phantoms fallback_speed_cells
          fb_result = some fb_out ∧
        Fb.MakeResponse c describeFb parameters tables phantoms fallback_speed_cells
          fb_out = some fb_out) := by
  subst hc hdj hdf hp ht hph hcells hr hfb
  refine ⟨rfl, rfl, fun hv => ?_⟩
  obtain ⟨out, h1, h2⟩ := json_MakeResponse_rerun c describeJson parameters tables phantoms
    fallback_speed_cells response hv
  obtain ⟨_, tb, _, _, _, _, _, _, _, _, _, hb, _⟩ :=
    MakeResponse_valid c describeJson describeFb parameters tables phantoms
      fallback_speed_cells response
      (if parameters.sources = [] then phantoms.length else parameters.sources.length)
      (if parameters.destinations = [] then phantoms.length
        else parameters.destinations.length) hv rfl rfl
  refine ⟨out,
    { finished :=
        some { code := some "Ok", response_type := ServiceResponse.table, table := none } },
    h1, h2, ?_, ?_⟩
  · rw [fb_MakeResponse_eq, hb]
    rfl
  · rw [fb_MakeResponse_eq, hb]
    rfl

/-- C15, at the sample query run twice from an empty object and a fresh builder. -/
theorem MakeResponse_idempotent_witness :
    (Sample.constants = Sample.constants) ∧ (Sample.describeJson = Sample.describeJson) ∧
    (Sample.describeFb = Sample.describeFb) ∧ (Sample.parameters = Sample.parameters) ∧
    (Sample.tables = Sample.tables) ∧ (Sample.phantoms = Sample.phantoms) ∧
    (Sample.fallback_speed_cells = Sample.fallback_speed_cells) ∧
    (([] : Object) = ([] : Object)) ∧
    (({ finished := none } : FlatBufferBuilder ℕ) = { finished := none }) ∧
    (Json.MakeResponse Sample.constants Sample.describeJson Sample.parameters Sample.tables
        Sample.phantoms Sample.fallback_speed_cells ([] : Object) =
      Json.MakeResponse Sample.constants Sample.describeJson Sample.parameters Sample.tables
        Sample.phantoms Sample.fallback_speed_cells ([] : Object) ∧
    Fb.MakeResponse Sample.constants Sample.describeFb Sample.parameters Sample.tables
        Sample.phantoms Sample.fallback_speed_cells { finished := none } =
      Fb.MakeResponse Sample.constants Sample.describeFb Sample.parameters Sample.tables
        Sample.phantoms Sample.fallback_speed_cells { finished := none } ∧
    (ValidInput Sample.parameters Sample.tables Sample.phantoms →
      ∃ (json_out : Object) (fb_out : FlatBufferBuilder ℕ),
        Json.MakeResponse Sample.constants Sample.describeJson Sample.parameters
          Sample.tables Sample.phantoms Sample.fallback_speed_cells ([] : Object) =
            some json_out ∧
        Json.MakeResponse Sample.constants Sample.describeJson Sample.parameters
          Sample.tables Sample.phantoms Sample.fallback_speed_cells json_out =
            some json_out ∧
        Fb.MakeResponse Sample.constants Sample.describeFb Sample.parameters Sample.tables
          Sample.phantoms Sample.fallback_speed_cells { finished := none } = some fb_out ∧
        Fb.MakeResponse Sample.constants Sample.describeFb Sample.parameters Sample.tables
          Sample.phantoms Sample.fallback_speed_cells fb_out = some fb_out)) :=
  ⟨rfl, rfl, rfl, rfl, rfl, rfl, rfl, rfl, rfl,
   MakeResponse_idempotent Sample.constants Sample.constants Sample.describeJson
     Sample.describeJson Sample.describeFb Sample.describeFb Sample.parameters
     Sample.parameters Sample.tables Sample.tables Sample.phantoms Sample.phantoms
     Sample.fallback_speed_cells Sample.fallback_speed_cells ([] : Object) ([] : Object)
     { finished := none } { finished := none }
     rfl rfl rfl rfl rfl rfl rfl rfl rfl⟩

/-! ## The end-to-end example -/

/-- The tree duration table of the end-to-end example. -/
theorem EndToEnd.json_durations :
    Json.MakeDurationTable Sample.constants EndToEnd.tables.1 2 3 =
      some [Value.Array [Value.Number 10, Value.Null, Value.Number 30],
        Value.Array [Value.Number 5, Value.Number 6, Value.Null]] := by
  simp [Json.MakeDurationTable, transformM, rowRange, Json.durationCell, List.range,
    List.range.loop, Sample.constants, EndToEnd.tables]
  norm_num

/-- The fallback gate of the end-to-end example is off. -/
theorem EndToEnd.gate_off :
    ¬ (EndToEnd.parameters.fallback_speed ≠ Sample.constants.INVALID_FALLBACK_SPEED ∧
      EndToEnd.parameters.fallback_speed > 0) :=
  fun h => h.1 rfl

/-- C12 (what the code does). In the end-to-end example (three points, `sources = [0, 2]`, no
destination selection, raw durations `[100, MAX, 300, 50, 60, MAX]`, Duration only, fallback
disabled) the tree response has `durations = [[10, null, 30], [5, 6, null]]` and neither
`distances` nor `fallback_speed_cells`; the binary emitter adds
`[[10, MAX, 30], [5, 6, MAX]]` as `durations` to its payload builder and neither of the other
two fields; but the finished binary response is an envelope without payload, so it has no
`durations` field at all. -/
theorem MakeResponse_end_to_end :
    (∃ out : Object,
      Json.MakeResponse Sample.constants Sample.describeJson EndToEnd.parameters
        EndToEnd.tables Sample.phantoms ([] : List TableCellRef) ([] : Object) = some out ∧
      out.lookup "durations" =
        some (Value.Array [Value.Array [Value.Number 10, Value.Null, Value.Number 30],
          Value.Array [Value.Number 5, Value.Number 6, Value.Null]]) ∧
      out.lookup "distances" = none ∧
      out.lookup "fallback_speed_cells" = none) ∧
    Fb.MakeResponseTable Sample.constants Sample.describeFb EndToEnd.parameters
      EndToEnd.tables Sample.phantoms ([] : List TableCellRef) =
      some
        { sources := some [11, 31],
          destinations := some [11, 21, 31],
          durations := some [[10, 2147483647, 30], [5, 6, 2147483647]],
          distances := none,
          fallback_speed_cells := none } ∧
    Fb.MakeResponse Sample.constants Sample.describeFb EndToEnd.parameters EndToEnd.tables
      Sample.phantoms ([] : List TableCellRef) { finished := none } =
      some
        { finished :=
            some { code := some "Ok", response_type := ServiceResponse.table, table := none } } :=
    by
  have h3 : EndToEnd.parameters.annotations.and AnnotationsType.Duration = true := by decide
  have h4 : ¬ (EndToEnd.parameters.annotations.and AnnotationsType.Distance = true) := by
    decide
  have hb : Fb.MakeResponseTable Sample.constants Sample.describeFb EndToEnd.parameters
      EndToEnd.tables Sample.phantoms ([] : List TableCellRef) =
      some
        { sources := some [11, 31],
          destinations := some [11, 21, 31],
          durations := some [[10, 2147483647, 30], [5, 6, 2147483647]],
          distances := none,
          fallback_speed_cells := none } := by
    have h := fb_MakeResponseTable_of_parts Sample.constants Sample.describeFb
      EndToEnd.parameters EndToEnd.tables Sample.phantoms ([] : List TableCellRef) 2 3
      [11, 31] [11, 21, 31] [[10, 2147483647, 30], [5, 6, 2147483647]] []
      (by decide) (by decide) (by decide) (by decide)
      (fun _ => Sample.fb_durations) (fun h => absurd h h4)
    rw [h]
    simp only [if_pos h3, if_neg h4, if_neg EndToEnd.gate_off]
  refine ⟨?_, hb, ?_⟩
  · obtain ⟨out, _, _, _, durJ, _, _, _, _, _, hout, _, _, _, _, _, hdur, _,
      ⟨_, _, l3, l4, l5, _, _⟩, _⟩ :=
      MakeResponse_valid Sample.constants Sample.describeJson Sample.describeFb
        EndToEnd.parameters EndToEnd.tables Sample.phantoms ([] : List TableCellRef)
        ([] : Object) 2 3 EndToEnd.example_valid (by decide) (by decide)
    have e : durJ = [Value.Array [Value.Number 10, Value.Null, Value.Number 30],
        Value.Array [Value.Number 5, Value.Number 6, Value.Null]] :=
      Option.some.inj ((hdur h3).2.1.symm.trans EndToEnd.json_durations)
    refine ⟨out, hout, ?_, ?_, ?_⟩
    · rw [l3, if_pos h3, e]
    · rw [l4, if_neg h4]
      rfl
    · rw [l5, if_neg EndToEnd.gate_off]
      rfl
  · rw [fb_MakeResponse_eq, hb]
    rfl
